import Mathlib

/- Verification development for the voxel-world pipeline of the
   Minecraft-Like-Voxel-Game repository.

   The JavaScript sources are shallowly embedded:
   * worldgen.js      : biome table and calculateBiomeWeights (exact rationals)
   * perlin.js        : mulberry32 PRNG (32-bit unsigned model), permutation
                        construction, gradient noise and fbm (exact rationals)
   * worldWorker.js   : face-culling mesh builder and its worker message loop
   * world.js         : chunk store, lifecycle state machine, rebuild queue

   JavaScript numbers are modelled as exact rationals (all quantities the
   claims touch are either integers, or rationals whose float64 evaluation in
   the relevant range is exact); 32-bit bitwise operations are modelled on
   Nat modulo 2^32 (the unsigned bit pattern of the JS int32/uint32 values);
   dense block grids are modelled as total functions from coordinates to
   block ids. -/

/-! ## worldgen.js : biome definitions and weights -/

/-- Biome definition record (worldgen.js BIOMES entries).  Only the fields
that the biome-weight computation reads are carried: name, noiseCenter and
noiseRadius; the heightParams and blockLayers fields are not needed by any
claim and are omitted. -/
structure Biome where
  name : String
  noiseCenter : ℚ
  noiseRadius : ℚ
deriving Repr, DecidableEq

/-- BIOMES table from worldgen.js: desert (center 0.15, radius 0.2),
plains (center 0.5, radius 0.25), hills (center 0.85, radius 0.2). -/
def BIOMES : List Biome :=
  [⟨"desert", 3/20, 1/5⟩, ⟨"plains", 1/2, 1/4⟩, ⟨"hills", 17/20, 1/5⟩]

/-- Raw triangular weight of one biome: max(0, 1 - |v - center| / radius)
(worldgen.js line 236). -/
def rawBiomeWeight (v : ℚ) (b : Biome) : ℚ :=
  max 0 (1 - |v - b.noiseCenter| / b.noiseRadius)

/-- Fallback scan of calculateBiomeWeights (worldgen.js lines 249-257):
running minimum over the biome list, strict less-than, minDist starting at
Infinity (modelled by the Option none state), returning the index of the
first biome attaining the minimum distance. -/
def closestBiomeScan (v : ℚ) (bs : List Biome) : Nat :=
  let step := fun (acc : Option ℚ × Nat × Nat) (b : Biome) =>
    let dist := |v - b.noiseCenter|
    match acc with
    | (none, _, i) => (some dist, i, i + 1)
    | (some minDist, best, i) =>
        if dist < minDist then (some dist, i, i + 1) else (some minDist, best, i + 1)
  (bs.foldl step (none, 0, 0)).2.1

/-- Index of the biome closest to the noise value, as computed by the
fallback branch of calculateBiomeWeights. -/
def closestBiomeIdx (v : ℚ) : Nat := closestBiomeScan v BIOMES

/-- calculateBiomeWeights (worldgen.js lines 229-266) over exact rationals.
The JS object keyed by biome names (names are distinct) is modelled as the
list of weights in BIOMES order.  If the total raw weight is positive every
weight is divided by the total; otherwise the biome closest to the value
gets weight 1 and all others 0. -/
def calculateBiomeWeights (v : ℚ) : List ℚ :=
  let raw := BIOMES.map (rawBiomeWeight v)
  let totalWeight := raw.sum
  if 0 < totalWeight then
    raw.map (fun w => w / totalWeight)
  else
    (List.range BIOMES.length).map (fun i => if i = closestBiomeIdx v then (1 : ℚ) else 0)

/-! ## perlin.js : mulberry32, permutation table, gradient noise, fbm -/

/-- Wrap to the unsigned 32-bit range (the bit pattern shared by the JS
int32 and uint32 coercions of the bitwise operators). -/
def m32 (n : Nat) : Nat := n % 4294967296

/-- One call of the mulberry32 closure (perlin.js lines 270-277): given the
captured seed state, return the new seed state and the raw uint32 whose
division by 2^32 is the returned random number.  JS int32 wrap-around and
the bitwise xor / or / unsigned-shift operators are modelled on the
unsigned 32-bit bit patterns. -/
def mulberry32Step (s : Nat) : Nat × Nat :=
  let s1 := m32 (s + 1831565813)
  let t1 := m32 ((s1 ^^^ (s1 >>> 15)) * (1 ||| s1))
  let t2 := m32 ((t1 + m32 ((t1 ^^^ (t1 >>> 7)) * (61 ||| t1))) ^^^ t1)
  (s1, t2 ^^^ (t2 >>> 14))

/-- One iteration of the Fisher-Yates shuffle in generatePermutation
(perlin.js lines 42-46): draw random(), compute
index = floor(random() * (i + 1)) — exact because the float64 product of a
uint32/2^32 value and (i+1) <= 256 is exact — and swap p[i] with p[index]. -/
def shuffleStep (acc : List Nat × Nat) (i : Nat) : List Nat × Nat :=
  let (p, s) := acc
  let (s1, u) := mulberry32Step s
  let index := (u * (i + 1)) / 4294967296
  let pi := p.getD i 0
  let pidx := p.getD index 0
  ((p.set i pidx).set index pi, s1)

/-- generatePermutation (perlin.js lines 33-52): initialize p = [0..255],
shuffle with mulberry32(seed * 10000 + 1234) for i = 255 down to 1, then
duplicate to 512 entries with p[i & 255]. -/
def generatePermutation (seed : Int) : List Nat :=
  let p0 := (List.range 256)
  let s0 := ((seed * 10000 + 1234) % 4294967296).toNat
  let iters := (List.range 255).map (fun k => 255 - k)
  let p := (iters.foldl shuffleStep (p0, s0)).1
  (List.range 512).map (fun i => p.getD (i % 256) 0)

/-- Perlin noise generator state: the 512-entry doubled permutation table
(perlin.js field `permutation`). -/
structure Perlin where
  permutation : List Nat
deriving Repr, DecidableEq

/-- Perlin constructor (perlin.js lines 24-27). -/
def Perlin.ofSeed (seed : Int) : Perlin := ⟨generatePermutation seed⟩

/-- Permutation table lookup (array access permutation[i]). -/
def Perlin.perm (p : Perlin) (i : Nat) : Nat := p.permutation.getD i 0

/-- Quintic fade curve 6t^5 - 15t^4 + 10t^3 (perlin.js line 216). -/
def fade (t : ℚ) : ℚ := t * t * t * (t * (t * 6 - 15) + 10)

/-- Linear interpolation a + t * (b - a) (perlin.js line 227). -/
def lerp (a b t : ℚ) : ℚ := a + t * (b - a)

/-- Gradient selection on the low 4 bits of the hash (perlin.js
lines 239-262), 16 slots with the first 4 directions repeated. -/
def gradIdx (k : Nat) (x y z : ℚ) : ℚ :=
  match k with
  | 0 => x + y
  | 1 => -x + y
  | 2 => x - y
  | 3 => -x - y
  | 4 => x + z
  | 5 => -x + z
  | 6 => x - z
  | 7 => -x - z
  | 8 => y + z
  | 9 => -y + z
  | 10 => y - z
  | 11 => -y - z
  | 12 => x + y
  | 13 => -x + y
  | 14 => x - y
  | 15 => -x - y
  | _ => 0

/-- grad function of perlin.js: dispatch on hash & 15. -/
def grad (hash : Nat) (x y z : ℚ) : ℚ := gradIdx (hash &&& 15) x y z

/-- Perlin.noise (perlin.js lines 62-114) over exact rationals.  The JS
`Math.floor(x) & 255` on an int32 equals the euclidean remainder of the
floor by 256. -/
def Perlin.noise (p : Perlin) (x y z : ℚ) : ℚ :=
  let floorX := ((⌊x⌋ : Int) % 256).toNat
  let floorY := ((⌊y⌋ : Int) % 256).toNat
  let floorZ := ((⌊z⌋ : Int) % 256).toNat
  let X := x - (⌊x⌋ : Int)
  let Y := y - (⌊y⌋ : Int)
  let Z := z - (⌊z⌋ : Int)
  let u := fade X
  let v := fade Y
  let w := fade Z
  let A := p.perm floorX + floorY
  let AA := p.perm A + floorZ
  let AB := p.perm (A + 1) + floorZ
  let B := p.perm (floorX + 1) + floorY
  let BA := p.perm B + floorZ
  let BB := p.perm (B + 1) + floorZ
  let gradAA := grad (p.perm AA) X Y Z
  let gradBA := grad (p.perm BA) (X - 1) Y Z
  let gradAB := grad (p.perm AB) X (Y - 1) Z
  let gradBB := grad (p.perm BB) (X - 1) (Y - 1) Z
  let gradAA1 := grad (p.perm (AA + 1)) X Y (Z - 1)
  let gradBA1 := grad (p.perm (BA + 1)) (X - 1) Y (Z - 1)
  let gradAB1 := grad (p.perm (AB + 1)) X (Y - 1) (Z - 1)
  let gradBB1 := grad (p.perm (BB + 1)) (X - 1) (Y - 1) (Z - 1)
  let lerpX1 := lerp gradAA gradBA u
  let lerpX2 := lerp gradAB gradBB u
  let lerpX3 := lerp gradAA1 gradBA1 u
  let lerpX4 := lerp gradAB1 gradBB1 u
  let lerpY1 := lerp lerpX1 lerpX2 v
  let lerpY2 := lerp lerpX3 lerpX4 v
  lerp lerpY1 lerpY2 w

/-- State of the fbm accumulation loop (perlin.js lines 154-166):
(total, frequency, amplitude, maxValue). -/
def Perlin.fbmLoop (p : Perlin) (x y z pers lac : ℚ) :
    Nat → ℚ × ℚ × ℚ × ℚ → ℚ × ℚ × ℚ × ℚ
  | 0, st => st
  | n + 1, (total, frequency, amplitude, maxValue) =>
      Perlin.fbmLoop p x y z pers lac n
        (total + p.noise (x * frequency) (y * frequency) (z * frequency) * amplitude,
         frequency * lac, amplitude * pers, maxValue + amplitude)

/-- Perlin.fbm (perlin.js lines 149-171): run the octave loop from
(total, frequency, amplitude, maxValue) = (0, 1, 1, 0); return 0 when the
accumulated maxValue is 0, otherwise total / maxValue. -/
def Perlin.fbm (p : Perlin) (x y z : ℚ) (octaves : Nat) (pers lac : ℚ) : ℚ :=
  let st := Perlin.fbmLoop p x y z pers lac octaves (0, 1, 1, 0)
  if st.2.2.2 = 0 then 0 else st.1 / st.2.2.2

/-! ## worldWorker.js / worldMesher : face-culling mesh builder -/

/-- Air block id (world.js BLOCK_AIR = -1). -/
def BLOCK_AIR : Int := -1

/-- Block-type catalog entry (world.js BLOCK_TYPES values).  Fields the mesh
builder reads: id, name and the transparency flag; color / opacity / texture
are rendering-only configuration and are omitted. -/
structure BlockType where
  id : Int
  name : String
  transparent : Bool
deriving Repr, DecidableEq

/-- BLOCK_TYPES table of world.js (ids 0-5 plus the implicit air entry at
BLOCK_AIR); lookup of any other id yields none (JS undefined). -/
def BLOCK_TYPES : Int → Option BlockType := fun i =>
  if i = 0 then some ⟨0, "grass", false⟩
  else if i = 1 then some ⟨1, "dirt", false⟩
  else if i = 2 then some ⟨2, "stone", false⟩
  else if i = 3 then some ⟨3, "water", true⟩
  else if i = 4 then some ⟨4, "sand", false⟩
  else if i = 5 then some ⟨5, "bedrock", false⟩
  else if i = BLOCK_AIR then some ⟨BLOCK_AIR, "air", true⟩
  else none

/-- Dense block grid of one chunk, indexed blocks[x][y][z], modelled as a
total function (in-range accesses are the only ones the embedded code
performs after its own bounds checks). -/
def BlocksGrid : Type := Int → Int → Int → Int

/-- Entry of the neighbour-data map sent to the mesh worker
(world.js getNeighbourDataForMeshing builds objects { blocks: ... }). -/
structure NeighbourEntry where
  blocks : Option BlocksGrid

/-- Neighbour-data map keyed by the relative chunk offset strings "1,0",
"-1,0", "0,1", "0,-1" (modelled by the integer offset pair, on which the
key string is injective). -/
def NeighbourData : Type := Int × Int → Option NeighbourEntry

/-- Direction table entry of the mesher (worldMesher DIRECTIONS): direction
vector, face name, and the four corner offsets of the emitted quad. -/
structure Direction where
  dir : Int × Int × Int
  name : String
  corners : List (Int × Int × Int)
deriving Repr, DecidableEq

/-- DIRECTIONS constant.  worldWorker.js line 84 declares the constant with
the comment "Same as in your previous mesher"; the table itself is the one
of the previous mesher (worldMesher buildChunkMesh, DIRECTIONS lines
283-290). -/
def DIRECTIONS : List Direction :=
  [⟨(1, 0, 0), "right", [(1, 1, 1), (1, 1, 0), (1, 0, 0), (1, 0, 1)]⟩,
   ⟨(-1, 0, 0), "left", [(0, 1, 0), (0, 1, 1), (0, 0, 1), (0, 0, 0)]⟩,
   ⟨(0, 1, 0), "top", [(1, 1, 1), (0, 1, 1), (0, 1, 0), (1, 1, 0)]⟩,
   ⟨(0, -1, 0), "bottom", [(0, 0, 1), (1, 0, 1), (1, 0, 0), (0, 0, 0)]⟩,
   ⟨(0, 0, 1), "front", [(0, 1, 1), (1, 1, 1), (1, 0, 1), (0, 0, 1)]⟩,
   ⟨(0, 0, -1), "back", [(1, 1, 0), (0, 1, 0), (0, 0, 0), (1, 0, 0)]⟩]

/-- Block lookup of the worker mesher (worldWorker.js lines 95-116,
the local getBlock closure): vertical out-of-bounds is air; inside the
horizontal bounds read the chunk grid; outside, locate the lateral
neighbour by the floored offset and read its grid at the wrapped local
coordinate, treating a missing neighbour (or missing blocks field) as air. -/
def workerGetBlock (chunkSize chunkHeight : Int) (blocks : BlocksGrid)
    (neighbourData : Option NeighbourData) (lx ly lz : Int) : Int :=
  if ly < 0 ∨ chunkHeight ≤ ly then BLOCK_AIR
  else if 0 ≤ lx ∧ lx < chunkSize ∧ 0 ≤ lz ∧ lz < chunkSize then
    blocks lx ly lz
  else
    let dx := Int.fdiv lx chunkSize
    let dz := Int.fdiv lz chunkSize
    match neighbourData with
    | none => BLOCK_AIR
    | some nd =>
      match nd (dx, dz) with
      | none => BLOCK_AIR
      | some neighbour =>
        match neighbour.blocks with
        | none => BLOCK_AIR
        | some nblocks =>
          let nx := lx - dx * chunkSize
          let nz := lz - dz * chunkSize
          if nx < 0 ∨ chunkSize ≤ nx ∨ nz < 0 ∨ chunkSize ≤ nz then BLOCK_AIR
          else nblocks nx ly nz

/-- Face-culling decision of the mesh builder (worldWorker.js lines
136-141): render when the neighbour is air or has no catalog entry, or when
the neighbour is transparent and the current block is not. -/
def shouldRenderFace (blockTypes : Int → Option BlockType)
    (currentBlockType : BlockType) (neighbourBlockID : Int) : Bool :=
  match blockTypes neighbourBlockID with
  | none => true
  | some neighbourBlockType =>
    if neighbourBlockID = BLOCK_AIR then true
    else if neighbourBlockType.transparent ∧ ¬currentBlockType.transparent then true
    else false

/-- Geometry buffer set under construction (positions, normals, uvs pushed
as numbers; indices as vertex indices).  Positions, normals and uvs are
integers throughout this mesher (corner offsets, direction components and
the placeholder uv values are all 0 or ±1). -/
structure GeoBuf where
  positions : List Int
  normals : List Int
  uvs : List Int
  indices : List Nat
deriving Repr, DecidableEq

/-- Empty geometry buffer. -/
def GeoBuf.empty : GeoBuf := ⟨[], [], [], []⟩

/-- Pair of geometry buffers being filled: the opaque bucket and the
transparent bucket (worldWorker.js lines 90-93, geometries object). -/
structure GeoPair where
  opq : GeoBuf
  trn : GeoBuf
deriving Repr, DecidableEq

/-- Placeholder uv computation of the worker (worldWorker.js lines
186-193). -/
def calculateUVForWorker (faceName : String) (corner : Int × Int × Int) : Int × Int :=
  let placeholderU := if faceName = "right" ∨ faceName = "left" then corner.2.2 else corner.1
  let placeholderV := if faceName = "top" ∨ faceName = "bottom" then corner.2.2 else corner.2.1
  (placeholderU, placeholderV)

/-- Append one face (4 corner vertices, 6 indices with the flipped winding
order of worldWorker.js lines 145-161) to a geometry buffer. -/
def pushFace (geo : GeoBuf) (x y z : Int) (d : Direction) : GeoBuf :=
  let indexOffset := geo.positions.length / 3
  let geo1 := d.corners.foldl
    (fun (g : GeoBuf) (corner : Int × Int × Int) =>
      let uv := calculateUVForWorker d.name corner
      { g with
        positions := g.positions ++ [x + corner.1, y + corner.2.1, z + corner.2.2],
        normals := g.normals ++ [d.dir.1, d.dir.2.1, d.dir.2.2],
        uvs := g.uvs ++ [uv.1, uv.2] }) geo
  { geo1 with indices := geo1.indices ++
      [indexOffset, indexOffset + 1, indexOffset + 2,
       indexOffset + 2, indexOffset + 1, indexOffset + 3] }

/-- Bucket selection for an emitted face (worldWorker.js line 146): the
transparent bucket when the current block type is transparent, otherwise
the opaque bucket. -/
def bucketIsTransparent (currentBlockType : BlockType) : Bool :=
  currentBlockType.transparent

/-- Process the six directions for one grid cell (the inner direction loop
of worldWorker.js lines 128-163). -/
def processCell (chunkSize chunkHeight : Int) (blocks : BlocksGrid)
    (neighbourData : Option NeighbourData) (blockTypes : Int → Option BlockType)
    (x y z : Int) (acc : GeoPair) : GeoPair :=
  let currentBlockID := blocks x y z
  match blockTypes currentBlockID with
  | none => acc
  | some currentBlockType =>
    if currentBlockID = BLOCK_AIR then acc
    else
      DIRECTIONS.foldl
        (fun (g : GeoPair) (d : Direction) =>
          let nx := x + d.dir.1
          let ny := y + d.dir.2.1
          let nz := z + d.dir.2.2
          let neighbourBlockID := workerGetBlock chunkSize chunkHeight blocks neighbourData nx ny nz
          if shouldRenderFace blockTypes currentBlockType neighbourBlockID then
            if bucketIsTransparent currentBlockType then
              { g with trn := pushFace g.trn x y z d }
            else
              { g with opq := pushFace g.opq x y z d }
          else g) acc

/-- Finalize one geometry buffer (worldWorker.js lines 169-177): null when
no indices were produced, otherwise the typed-array payload (identical
numeric content in this model). -/
def finalizeGeometry (geo : GeoBuf) : Option GeoBuf :=
  if geo.indices.length = 0 then none else some geo

/-- Final geometry payload posted by the worker (and stored by the main
thread as the chunk mesh): the finalized opaque and transparent buffers. -/
structure GeometryData where
  opq : Option GeoBuf
  trn : Option GeoBuf
deriving Repr, DecidableEq

/-- buildMeshGeometryData (worldWorker.js lines 86-183): triple loop over
y, then z, then x (cells enumerated with Nat ranges cast to Int, matching
the JS loops over [0, chunkHeight) and [0, chunkSize)), the per-cell
direction pass, and the per-bucket finalization. -/
def buildMeshGeometryData (chunkSize chunkHeight : Nat) (blocks : BlocksGrid)
    (neighbourData : Option NeighbourData) (blockTypes : Int → Option BlockType) :
    GeometryData :=
  let cells := (List.range chunkHeight).flatMap (fun y =>
    (List.range chunkSize).flatMap (fun z =>
      (List.range chunkSize).map (fun x => ((x : Int), (y : Int), (z : Int)))))
  let geos := cells.foldl
    (fun (g : GeoPair) (c : Int × Int × Int) =>
      processCell chunkSize chunkHeight blocks neighbourData blockTypes c.1 c.2.1 c.2.2 g)
    ⟨GeoBuf.empty, GeoBuf.empty⟩
  ⟨finalizeGeometry geos.opq, finalizeGeometry geos.trn⟩

/-! ## world.js : chunk store, lifecycle state machine, rebuild queue -/

/-- Chunk width/depth in blocks (world.js CHUNK_SIZE = 16). -/
def CHUNK_SIZE : Int := 16

/-- Chunk height in blocks (worldgen.js CONFIG.CHUNK_HEIGHT = 64, imported
by world.js as CHUNK_HEIGHT). -/
def CHUNK_HEIGHT : Int := 64

/-- Render distance in chunks (world.js RENDER_DISTANCE = 6). -/
def RENDER_DISTANCE : Int := 6

/-- Chunk lifecycle states (world.js CHUNK_STATE). -/
abbrev CHUNK_STATE.UNKNOWN : Nat := 0
abbrev CHUNK_STATE.LOADING_DATA : Nat := 1
abbrev CHUNK_STATE.DATA_LOADED : Nat := 2
abbrev CHUNK_STATE.MESHING : Nat := 3
abbrev CHUNK_STATE.READY : Nat := 4
abbrev CHUNK_STATE.UNLOADING : Nat := 5

/-- Chunk record stored in chunkStorage (world.js requestChunkGeneration
creates { cx, cz, blocks, mesh, state }).  The THREE.Group mesh built from
the worker geometry is modelled by the geometry payload it was built
from. -/
structure Chunk where
  cx : Int
  cz : Int
  blocks : Option BlocksGrid
  mesh : Option GeometryData
  state : Nat

/-- Chunk key: world.js uses the template string "cx,cz", injective on
integer pairs, modelled by the pair itself. -/
def chunkKey (cx cz : Int) : Int × Int := (cx, cz)

/-- Association-list model of the JS Map chunkStorage (insertion order
preserved, keys unique along the operations used). -/
def mapGet (m : List ((Int × Int) × Chunk)) (k : Int × Int) : Option Chunk :=
  match m with
  | [] => none
  | (k2, c) :: t => if k2 = k then some c else mapGet t k

/-- Map.set: replace the first binding of the key, or append a new one. -/
def mapSet (m : List ((Int × Int) × Chunk)) (k : Int × Int) (c : Chunk) :
    List ((Int × Int) × Chunk) :=
  match m with
  | [] => [(k, c)]
  | (k2, c2) :: t => if k2 = k then (k, c) :: t else (k2, c2) :: mapSet t k c

/-- Map.delete: remove the first binding of the key. -/
def mapDelete (m : List ((Int × Int) × Chunk)) (k : Int × Int) :
    List ((Int × Int) × Chunk) :=
  match m with
  | [] => []
  | (k2, c2) :: t => if k2 = k then t else (k2, c2) :: mapDelete t k

/-- Task messages posted by the main thread to the worker
(world.js worker.postMessage calls with type generate / mesh). -/
inductive WorkerTask where
  | generate (cx cz : Int)
  | mesh (cx cz : Int) (blocks : BlocksGrid) (chunkSize chunkHeight : Int)
      (neighbourData : NeighbourData)

/-- Messages posted by the worker back to the main thread
(worldWorker.js postMessage calls: generated, meshed, log, error). -/
inductive WorkerMsg where
  | generated (cx cz : Int) (blocks : BlocksGrid)
  | meshed (cx cz : Int) (geometryData : GeometryData)
  | log (message : String)
  | errorMsg (error : String)

/-- Orchestrator-side world state: the chunk storage map, the mesh rebuild
queue (a JS Set of keys, iterated in insertion order, modelled as a
duplicate-free list), and the outbox of tasks posted to the worker. -/
structure WorldState where
  chunkStorage : List ((Int × Int) × Chunk)
  meshRebuildQueue : List (Int × Int)
  outbox : List WorkerTask

/-- Initial world state: empty storage, empty queue, nothing posted. -/
def WorldState.init : WorldState := ⟨[], [], []⟩

/-- getChunk (world.js lines 107-109). -/
def getChunk (st : WorldState) (cx cz : Int) : Option Chunk :=
  mapGet st.chunkStorage (chunkKey cx cz)

/-- Store an updated chunk record under its key (the JS code mutates the
record object held by the Map in place). -/
def putChunk (st : WorldState) (cx cz : Int) (c : Chunk) : WorldState :=
  { st with chunkStorage := mapSet st.chunkStorage (chunkKey cx cz) c }

/-- Per-neighbour check of getNeighbourDataForMeshing (world.js lines
217-226): the neighbour chunk must exist with non-null blocks and state at
least DATA_LOADED; returns its blocks. -/
def neighbourBlocksFor (st : WorldState) (cx cz dx dz : Int) : Option BlocksGrid :=
  match getChunk st (cx + dx) (cz + dz) with
  | none => none
  | some neighbourChunk =>
    match neighbourChunk.blocks with
    | none => none
    | some b =>
      if neighbourChunk.state < CHUNK_STATE.DATA_LOADED then none else some b

/-- getNeighbourDataForMeshing (world.js lines 210-228): require all four
lateral neighbours (+1,0), (-1,0), (0,1), (0,-1) to have loaded block data;
otherwise null. -/
def getNeighbourDataForMeshing (st : WorldState) (cx cz : Int) : Option NeighbourData := do
  let b1 ← neighbourBlocksFor st cx cz 1 0
  let b2 ← neighbourBlocksFor st cx cz (-1) 0
  let b3 ← neighbourBlocksFor st cx cz 0 1
  let b4 ← neighbourBlocksFor st cx cz 0 (-1)
  pure (fun k =>
    if k = (1, 0) then some ⟨some b1⟩
    else if k = (-1, 0) then some ⟨some b2⟩
    else if k = (0, 1) then some ⟨some b3⟩
    else if k = (0, -1) then some ⟨some b4⟩
    else none)

/-- requestChunkMesh (world.js lines 234-264): no-op when the chunk is
missing, has no blocks, is below DATA_LOADED or is already MESHING; when a
lateral neighbour lacks data the chunk is (re)marked DATA_LOADED and
nothing is posted; otherwise the chunk enters MESHING and a mesh task is
posted with its blocks, the chunk dimensions and the neighbour data. -/
def requestChunkMesh (st : WorldState) (cx cz : Int) : WorldState :=
  match getChunk st cx cz with
  | none => st
  | some chunk =>
    match chunk.blocks with
    | none => st
    | some b =>
      if chunk.state < CHUNK_STATE.DATA_LOADED ∨ chunk.state = CHUNK_STATE.MESHING then st
      else
        match getNeighbourDataForMeshing st cx cz with
        | none => putChunk st cx cz { chunk with state := CHUNK_STATE.DATA_LOADED }
        | some neighbourData =>
          let st1 := putChunk st cx cz { chunk with state := CHUNK_STATE.MESHING }
          { st1 with outbox := st1.outbox ++
              [WorkerTask.mesh cx cz b CHUNK_SIZE CHUNK_HEIGHT neighbourData] }

/-- Loop body of updateNeighboursOf (world.js lines 275-281): for a
lateral neighbour in state exactly DATA_LOADED, try requestChunkMesh. -/
def updateNeighboursStep (cx cz : Int) (s : WorldState) (o : Int × Int) : WorldState :=
  match getChunk s (cx + o.1) (cz + o.2) with
  | some neighbour =>
    if neighbour.state = CHUNK_STATE.DATA_LOADED then
      requestChunkMesh s (cx + o.1) (cz + o.2)
    else s
  | none => s

/-- updateNeighboursOf (world.js lines 270-282): fold the per-neighbour
step over the four lateral offsets. -/
def updateNeighboursOf (st : WorldState) (cx cz : Int) : WorldState :=
  [((1 : Int), (0 : Int)), (-1, 0), (0, 1), (0, -1)].foldl (updateNeighboursStep cx cz) st

/-- buildMeshFromData (world.js lines 123-174): dispose the old mesh and
install the mesh built from the worker geometry (modelled by storing the
geometry payload). -/
def buildMeshFromData (st : WorldState) (cx cz : Int) (geometryData : GeometryData) :
    WorldState :=
  match getChunk st cx cz with
  | none => st
  | some chunk => putChunk st cx cz { chunk with mesh := some geometryData }

/-- worker.onmessage (world.js lines 63-101): the generated case (valid
only from LOADING_DATA; stores blocks, advances to DATA_LOADED and
immediately tries requestChunkMesh), the meshed case (valid only from
MESHING; installs the mesh, advances to READY and retries deferred
neighbours), and the log / error cases which leave the store untouched. -/
def handleWorkerMessage (st : WorldState) (msg : WorkerMsg) : WorldState :=
  match msg with
  | WorkerMsg.generated cx cz blocks =>
    match getChunk st cx cz with
    | some chunk =>
      if chunk.state = CHUNK_STATE.LOADING_DATA then
        let st1 := putChunk st cx cz
          { chunk with blocks := some blocks, state := CHUNK_STATE.DATA_LOADED }
        requestChunkMesh st1 cx cz
      else st
    | none => st
  | WorkerMsg.meshed cx cz geometryData =>
    match getChunk st cx cz with
    | some chunk =>
      if chunk.state = CHUNK_STATE.MESHING then
        let st1 := buildMeshFromData st cx cz geometryData
        let st2 :=
          match getChunk st1 cx cz with
          | some c2 => putChunk st1 cx cz { c2 with state := CHUNK_STATE.READY }
          | none => st1
        updateNeighboursOf st2 cx cz
      else st
    | none => st
  | WorkerMsg.log _ => st
  | WorkerMsg.errorMsg _ => st

/-- requestChunkGeneration (world.js lines 287-297): no-op when a record
already exists; otherwise create the record in LOADING_DATA with null
blocks and mesh and post a generate task. -/
def requestChunkGeneration (st : WorldState) (cx cz : Int) : WorldState :=
  if (mapGet st.chunkStorage (chunkKey cx cz)).isSome then st
  else
    { st with
      chunkStorage := mapSet st.chunkStorage (chunkKey cx cz)
        ⟨cx, cz, none, none, CHUNK_STATE.LOADING_DATA⟩,
      outbox := st.outbox ++ [WorkerTask.generate cx cz] }

/-- Result of worldToVoxelCoords (world.js lines 302-310) on integer world
coordinates: floor division by CHUNK_SIZE for the chunk coordinate,
euclidean modulo for the local coordinate, y taken as is. -/
structure VoxelCoords where
  cx : Int
  cz : Int
  lx : Int
  ly : Int
  lz : Int
deriving Repr, DecidableEq

/-- worldToVoxelCoords for integer world coordinates (Math.floor(x / 16) is
integer floor division, THREE.MathUtils.euclideanModulo is the euclidean
remainder, Math.floor(y) = y). -/
def worldToVoxelCoords (x y z : Int) : VoxelCoords :=
  ⟨Int.fdiv x CHUNK_SIZE, Int.fdiv z CHUNK_SIZE,
   Int.emod x CHUNK_SIZE, y, Int.emod z CHUNK_SIZE⟩

/-- getBlock (world.js lines 315-330): air outside the vertical bounds, air
when the chunk is missing / without blocks / below DATA_LOADED, otherwise
the stored block id at the local cell. -/
def getBlock (st : WorldState) (x y z : Int) : Int :=
  let v := worldToVoxelCoords x y z
  if v.ly < 0 ∨ CHUNK_HEIGHT ≤ v.ly then BLOCK_AIR
  else
    match getChunk st v.cx v.cz with
    | none => BLOCK_AIR
    | some chunk =>
      match chunk.blocks with
      | none => BLOCK_AIR
      | some b =>
        if chunk.state < CHUNK_STATE.DATA_LOADED then BLOCK_AIR
        else b v.lx v.ly v.lz

/-- flagChunkForRebuild (world.js lines 335-345): queue the key only when
the chunk exists with loaded blocks, state at least DATA_LOADED and not
MESHING; the JS Set never duplicates a key. -/
def flagChunkForRebuild (st : WorldState) (cx cz : Int) : WorldState :=
  match mapGet st.chunkStorage (chunkKey cx cz) with
  | none => st
  | some chunk =>
    match chunk.blocks with
    | none => st
    | some _ =>
      if CHUNK_STATE.DATA_LOADED ≤ chunk.state then
        if chunk.state ≠ CHUNK_STATE.MESHING then
          if chunkKey cx cz ∈ st.meshRebuildQueue then st
          else { st with meshRebuildQueue := st.meshRebuildQueue ++ [chunkKey cx cz] }
        else st
      else st

/-- Pointwise update of a block grid at one cell (the JS assignment
chunk.blocks[lx][ly][lz] = blockId). -/
def setBlockInGrid (b : BlocksGrid) (lx ly lz id : Int) : BlocksGrid :=
  fun a c d => if a = lx ∧ c = ly ∧ d = lz then id else b a c d

/-- addBlock (world.js lines 350-377): reject out-of-vertical-bounds writes
and writes into missing / unloaded chunks; no-op when the stored id already
equals the written id; otherwise write the cell, flag the owning chunk and
flag each lateral neighbour whose boundary the cell touches. -/
def addBlock (st : WorldState) (x y z blockId : Int) : WorldState :=
  let v := worldToVoxelCoords x y z
  if v.ly < 0 ∨ CHUNK_HEIGHT ≤ v.ly then st
  else
    match getChunk st v.cx v.cz with
    | none => st
    | some chunk =>
      match chunk.blocks with
      | none => st
      | some b =>
        if chunk.state < CHUNK_STATE.DATA_LOADED then st
        else if b v.lx v.ly v.lz = blockId then st
        else
          let st1 := putChunk st v.cx v.cz
            { chunk with blocks := some (setBlockInGrid b v.lx v.ly v.lz blockId) }
          let st2 := flagChunkForRebuild st1 v.cx v.cz
          let st3 := if v.lx = 0 then flagChunkForRebuild st2 (v.cx - 1) v.cz else st2
          let st4 := if v.lx = CHUNK_SIZE - 1 then flagChunkForRebuild st3 (v.cx + 1) v.cz else st3
          let st5 := if v.lz = 0 then flagChunkForRebuild st4 v.cx (v.cz - 1) else st4
          if v.lz = CHUNK_SIZE - 1 then flagChunkForRebuild st5 v.cx (v.cz + 1) else st5

/-- removeBlock (world.js lines 382-384): adding air. -/
def removeBlock (st : WorldState) (x y z : Int) : WorldState :=
  addBlock st x y z BLOCK_AIR

/-- One pass of the processRebuildQueue loop (world.js lines 389-409) over
the snapshot of queued keys, with the processed counter against
maxPerFrame. -/
def processRebuildKeys (keys : List (Int × Int)) (maxPerFrame processed : Nat)
    (st : WorldState) : WorldState :=
  match keys with
  | [] => st
  | key :: rest =>
    if maxPerFrame ≤ processed then st
    else
      match mapGet st.chunkStorage key with
      | some chunk =>
        if chunk.state ≠ CHUNK_STATE.MESHING ∧ CHUNK_STATE.DATA_LOADED ≤ chunk.state then
          let st1 := requestChunkMesh st key.1 key.2
          let st2 := { st1 with meshRebuildQueue := st1.meshRebuildQueue.filter (· ≠ key) }
          processRebuildKeys rest maxPerFrame (processed + 1) st2
        else if chunk.state = CHUNK_STATE.UNLOADING then
          processRebuildKeys rest maxPerFrame processed
            { st with meshRebuildQueue := st.meshRebuildQueue.filter (· ≠ key) }
        else if chunk.state = CHUNK_STATE.MESHING then
          processRebuildKeys rest maxPerFrame processed
            { st with meshRebuildQueue := st.meshRebuildQueue.filter (· ≠ key) }
        else
          processRebuildKeys rest maxPerFrame processed st
      | none =>
        processRebuildKeys rest maxPerFrame processed
          { st with meshRebuildQueue := st.meshRebuildQueue.filter (· ≠ key) }

/-- processRebuildQueue (world.js lines 389-409) with its maxPerFrame
argument (default 1 at the call site in updateWorld). -/
def processRebuildQueue (st : WorldState) (maxPerFrame : Nat) : WorldState :=
  processRebuildKeys st.meshRebuildQueue maxPerFrame 0 st

/-- Square active region of updateWorld phase 1 (world.js lines 421-427):
keys (playerCX + dx, playerCZ + dz) for dx, dz in [-RENDER_DISTANCE,
RENDER_DISTANCE], dx outer loop. -/
def inRangeKeys (playerCX playerCZ : Int) : List (Int × Int) :=
  (List.range (2 * 6 + 1)).flatMap (fun dxi =>
    (List.range (2 * 6 + 1)).map (fun dzi =>
      (playerCX + (dxi : Int) - RENDER_DISTANCE, playerCZ + (dzi : Int) - RENDER_DISTANCE)))

/-- Phase 1 body of updateWorld for one in-range key (world.js lines
428-436): request generation when missing or UNKNOWN; revert an UNLOADING
chunk to READY. -/
def updateWorldPhase1Step (st : WorldState) (k : Int × Int) : WorldState :=
  match mapGet st.chunkStorage k with
  | none => requestChunkGeneration st k.1 k.2
  | some chunk =>
    if chunk.state = CHUNK_STATE.UNKNOWN then requestChunkGeneration st k.1 k.2
    else if chunk.state = CHUNK_STATE.UNLOADING then
      putChunk st k.1 k.2 { chunk with state := CHUNK_STATE.READY }
    else st

/-- Phase 2 body of updateWorld for one stored key (world.js lines
441-453): a chunk outside the active region and not already UNLOADING is
marked UNLOADING, its mesh disposed, and its record deleted. -/
def updateWorldPhase2Step (inRange : List (Int × Int)) (st : WorldState) (k : Int × Int) :
    WorldState :=
  match mapGet st.chunkStorage k with
  | none => st
  | some chunk =>
    if k ∉ inRange ∧ chunk.state ≠ CHUNK_STATE.UNLOADING then
      let st1 := putChunk st k.1 k.2 { chunk with state := CHUNK_STATE.UNLOADING, mesh := none }
      { st1 with chunkStorage := mapDelete st1.chunkStorage k }
    else st

/-- updateWorld (world.js lines 415-457): phase 1 over the active region,
phase 2 over the snapshot of stored keys, then one processRebuildQueue
step. -/
def updateWorld (st : WorldState) (px pz : Int) : WorldState :=
  let playerCX := Int.fdiv px CHUNK_SIZE
  let playerCZ := Int.fdiv pz CHUNK_SIZE
  let inRange := inRangeKeys playerCX playerCZ
  let st1 := inRange.foldl updateWorldPhase1Step st
  let storedKeys := st1.chunkStorage.map (fun e => e.1)
  let st2 := storedKeys.foldl (updateWorldPhase2Step inRange) st1
  processRebuildQueue st2 1

/-- Reachable orchestrator states: the empty initial state, closed under
the externally invocable operations of world.js — worker messages
(worker.onmessage), addBlock / removeBlock, processRebuildQueue and
updateWorld. -/
inductive Reachable : WorldState → Prop where
  | init : Reachable WorldState.init
  | msg {s} (m : WorkerMsg) : Reachable s → Reachable (handleWorkerMessage s m)
  | place {s} (x y z id : Int) : Reachable s → Reachable (addBlock s x y z id)
  | erase {s} (x y z : Int) : Reachable s → Reachable (removeBlock s x y z)
  | rebuild {s} (n : Nat) : Reachable s → Reachable (processRebuildQueue s n)
  | update {s} (px pz : Int) : Reachable s → Reachable (updateWorld s px pz)

/-! ## worldWorker.js : worker message loop (task boundary) -/

/-- Messages received by the worker (worldWorker.js self.onmessage): the
two init messages and the two task kinds. -/
inductive WorkerIn where
  | initBlocks
  | initAtlas
  | generate (cx cz : Int)
  | mesh (cx cz : Int) (blocks : BlocksGrid) (chunkSize chunkHeight : Nat)
      (neighbourData : Option NeighbourData)

/-- Worker message handler (worldWorker.js lines 10-78).  The body of the
switch runs inside try/catch: a handler that throws is modelled by its
computation returning Except.error, in which case the catch posts the
structured error message instead of the normal reply and nothing else
happens.  The generation computation (generateChunkData) and the meshing
computation are passed as the possibly-throwing computations; a successful
mesh computation is the embedded buildMeshGeometryData. -/
def workerOnMessage
    (runGenerate : Int → Int → Except String BlocksGrid)
    (runMesh : WorkerIn → Except String GeometryData)
    (msg : WorkerIn) : List WorkerMsg :=
  match msg with
  | WorkerIn.initBlocks => []
  | WorkerIn.initAtlas => []
  | WorkerIn.generate cx cz =>
    match runGenerate cx cz with
    | Except.ok blocks => [WorkerMsg.generated cx cz blocks]
    | Except.error e => [WorkerMsg.errorMsg e]
  | WorkerIn.mesh cx cz _ _ _ _ =>
    match runMesh msg with
    | Except.ok geometryData => [WorkerMsg.meshed cx cz geometryData]
    | Except.error e => [WorkerMsg.errorMsg e]

/-- Predicate of getNeighbourDataForMeshing for a single stored chunk:
record present, blocks non-null, state at least DATA_LOADED. -/
def chunkDataOk (st : WorldState) (k : Int × Int) : Bool :=
  match mapGet st.chunkStorage k with
  | some c => c.blocks.isSome && decide (CHUNK_STATE.DATA_LOADED ≤ c.state)
  | none => false



/-- Per-chunk invariant behind the amended C5: a non-null mesh is only held
from DATA_LOADED onward, and any chunk at DATA_LOADED or later has its block
data loaded. -/
def chunkInv (c : Chunk) : Prop :=
  (c.mesh.isSome = true → CHUNK_STATE.DATA_LOADED ≤ c.state) ∧
  (CHUNK_STATE.DATA_LOADED ≤ c.state → c.blocks.isSome = true)

/-- Store-wide invariant: every stored chunk satisfies chunkInv. -/
def storeInv (st : WorldState) : Prop := ∀ e ∈ st.chunkStorage, chunkInv e.2

/-- A concrete block grid: every cell holds block id 1. -/
def gridOnes : BlocksGrid := fun _ _ _ => 1

/-- Driver scenario, step 1: one updateWorld from the empty store at the
origin (requests generation of the whole active region). -/
def sC5a : WorldState := updateWorld WorldState.init 0 0

/-- Driver scenario, step 2: generated data arrives for the four lateral
neighbours of (0,0) and then for (0,0) itself, whose mesh request fires. -/
def sC5b : WorldState :=
  handleWorkerMessage
    (handleWorkerMessage
      (handleWorkerMessage
        (handleWorkerMessage
          (handleWorkerMessage sC5a (WorkerMsg.generated 1 0 gridOnes))
          (WorkerMsg.generated (-1) 0 gridOnes))
        (WorkerMsg.generated 0 1 gridOnes))
      (WorkerMsg.generated 0 (-1) gridOnes))
    (WorkerMsg.generated 0 0 gridOnes)

/-- Driver scenario, step 3: the meshed reply for (0,0) arrives; the chunk
becomes READY holding its mesh. -/
def sC5c : WorldState :=
  handleWorkerMessage sC5b (WorkerMsg.meshed 0 0 ⟨none, none⟩)

/-- Driver scenario, step 4: a block write into (0,0) flags it, and one
processRebuildQueue step moves it back to MESHING with the old mesh kept. -/
def sC5d : WorldState :=
  processRebuildQueue (addBlock sC5c 5 10 5 2) 1

/-- The chunk record stored under (0,0) in sC5d: MESHING, blocks written,
old mesh still installed. -/
def cC5 : Chunk :=
  ⟨0, 0, some (setBlockInGrid gridOnes 5 10 5 2), some ⟨none, none⟩, CHUNK_STATE.MESHING⟩

/-- Guard of flagChunkForRebuild (world.js lines 338-343) as a predicate of
the storage list: chunk present with loaded blocks, state at least
DATA_LOADED and not MESHING. -/
def rebuildFlagCond (m : List ((Int × Int) × Chunk)) (k : Int × Int) : Bool :=
  match mapGet m k with
  | some chunk => chunk.blocks.isSome && decide (CHUNK_STATE.DATA_LOADED ≤ chunk.state) &&
      decide (chunk.state ≠ CHUNK_STATE.MESHING)
  | none => false

/-! ## Theorems

Helper lemmas come first inside each group, then the claim theorems with
their witnesses and counterexamples. -/

set_option linter.unnecessarySeqFocus false
set_option linter.unreachableTactic false
set_option linter.unusedTactic false

/-- Bound on the fallback scan result: with three biomes the chosen index
is below 3. -/
theorem closestBiomeIdx_lt_three (v : ℚ) : closestBiomeIdx v < 3 := by
  unfold closestBiomeIdx closestBiomeScan BIOMES
  simp only [List.foldl]
  split_ifs <;> norm_num <;> split_ifs <;> norm_num

/-- Fallback scan picks the desert when its center is strictly closest. -/
theorem closestBiomeIdx_eq_zero (v : ℚ) (h1 : |v - 3/20| < |v - 1/2|)
    (h2 : |v - 3/20| < |v - 17/20|) : closestBiomeIdx v = 0 := by
  unfold closestBiomeIdx closestBiomeScan BIOMES
  simp only [List.foldl]
  split_ifs <;> norm_num <;> split_ifs <;> norm_num <;> linarith

/-- Fallback scan picks the plains when its center is strictly closest. -/
theorem closestBiomeIdx_eq_one (v : ℚ) (h1 : |v - 1/2| < |v - 3/20|)
    (h2 : |v - 1/2| < |v - 17/20|) : closestBiomeIdx v = 1 := by
  unfold closestBiomeIdx closestBiomeScan BIOMES
  simp only [List.foldl]
  split_ifs <;> norm_num <;> split_ifs <;> norm_num <;> linarith

/-- Fallback scan picks the hills when its center is strictly closest. -/
theorem closestBiomeIdx_eq_two (v : ℚ) (h1 : |v - 17/20| < |v - 3/20|)
    (h2 : |v - 17/20| < |v - 1/2|) : closestBiomeIdx v = 2 := by
  unfold closestBiomeIdx closestBiomeScan BIOMES
  simp only [List.foldl]
  split_ifs <;> norm_num <;> split_ifs <;> norm_num <;> linarith

/-- C6: for every selector value in [0,1], calculateBiomeWeights returns
one weight per defined biome, each non-negative, summing to 1 (exactly, in
the rational model); and when every biome's triangular weight
max(0, 1 - |selector - center| / radius) is zero, the single biome whose
center is strictly closest to the selector receives weight 1 and all
others receive weight 0. -/
theorem C6_calculateBiomeWeights (v : ℚ) :
    (0 ≤ v → v ≤ 1 →
      (calculateBiomeWeights v).length = BIOMES.length ∧
      (∀ w ∈ calculateBiomeWeights v, 0 ≤ w) ∧
      (calculateBiomeWeights v).sum = 1) ∧
    (∀ i, i < BIOMES.length →
      (∀ b ∈ BIOMES, rawBiomeWeight v b = 0) →
      (∀ j, j < BIOMES.length → j ≠ i →
        |v - (BIOMES.getD i ⟨"", 0, 1⟩).noiseCenter| <
          |v - (BIOMES.getD j ⟨"", 0, 1⟩).noiseCenter|) →
      calculateBiomeWeights v =
        (List.range BIOMES.length).map (fun j => if j = i then (1 : ℚ) else 0)) := by
  have hnn : ∀ b : Biome, 0 ≤ rawBiomeWeight v b := fun b => le_max_left 0 _
  have hc3 := closestBiomeIdx_lt_three v
  constructor
  · intro _ _
    by_cases htot : 0 < rawBiomeWeight v ⟨"desert", 3/20, 1/5⟩ +
        (rawBiomeWeight v ⟨"plains", 1/2, 1/4⟩ + rawBiomeWeight v ⟨"hills", 17/20, 1/5⟩)
    · have he : calculateBiomeWeights v =
          [rawBiomeWeight v ⟨"desert", 3/20, 1/5⟩ /
             (rawBiomeWeight v ⟨"desert", 3/20, 1/5⟩ +
               (rawBiomeWeight v ⟨"plains", 1/2, 1/4⟩ +
                 rawBiomeWeight v ⟨"hills", 17/20, 1/5⟩)),
           rawBiomeWeight v ⟨"plains", 1/2, 1/4⟩ /
             (rawBiomeWeight v ⟨"desert", 3/20, 1/5⟩ +
               (rawBiomeWeight v ⟨"plains", 1/2, 1/4⟩ +
                 rawBiomeWeight v ⟨"hills", 17/20, 1/5⟩)),
           rawBiomeWeight v ⟨"hills", 17/20, 1/5⟩ /
             (rawBiomeWeight v ⟨"desert", 3/20, 1/5⟩ +
               (rawBiomeWeight v ⟨"plains", 1/2, 1/4⟩ +
                 rawBiomeWeight v ⟨"hills", 17/20, 1/5⟩))] := by
        unfold calculateBiomeWeights
        simp only [BIOMES, List.map, List.sum_cons, List.sum_nil, add_zero]
        rw [if_pos htot]
      rw [he]
      refine ⟨by simp [BIOMES], ?_, ?_⟩
      · intro w hw
        simp only [List.mem_cons, List.not_mem_nil, or_false] at hw
        rcases hw with rfl | rfl | rfl <;> exact div_nonneg (hnn _) (le_of_lt htot)
      · rw [List.sum_cons, List.sum_cons, List.sum_cons, List.sum_nil, add_zero,
          div_add_div_same, div_add_div_same]
        exact div_self (ne_of_gt htot)
    · have he : calculateBiomeWeights v =
          (List.range 3).map (fun i => if i = closestBiomeIdx v then (1 : ℚ) else 0) := by
        unfold calculateBiomeWeights
        simp only [BIOMES, List.map, List.sum_cons, List.sum_nil, add_zero, List.length_cons,
          List.length_nil]
        rw [if_neg htot]
      rw [he]
      refine ⟨by simp [BIOMES], ?_, ?_⟩
      · intro w hw
        simp only [List.mem_map] at hw
        obtain ⟨j, _, rfl⟩ := hw
        by_cases hj : j = closestBiomeIdx v <;> simp [hj]
      · set c := closestBiomeIdx v with hcdef
        interval_cases c <;> simp [List.range_succ]
  · intro i hi hz hcl
    have hz1 := hz ⟨"desert", 3/20, 1/5⟩ (by simp [BIOMES])
    have hz2 := hz ⟨"plains", 1/2, 1/4⟩ (by simp [BIOMES])
    have hz3 := hz ⟨"hills", 17/20, 1/5⟩ (by simp [BIOMES])
    have htot : ¬ 0 < rawBiomeWeight v ⟨"desert", 3/20, 1/5⟩ +
        (rawBiomeWeight v ⟨"plains", 1/2, 1/4⟩ + rawBiomeWeight v ⟨"hills", 17/20, 1/5⟩) := by
      rw [hz1, hz2, hz3]; norm_num
    have he : calculateBiomeWeights v =
        (List.range 3).map (fun j => if j = closestBiomeIdx v then (1 : ℚ) else 0) := by
      unfold calculateBiomeWeights
      simp only [BIOMES, List.map, List.sum_cons, List.sum_nil, add_zero, List.length_cons,
        List.length_nil]
      rw [if_neg htot]
    simp only [BIOMES, List.length_cons, List.length_nil] at hi hcl
    have hci : closestBiomeIdx v = i := by
      interval_cases i
      · have h1 := hcl 1 (by norm_num) (by norm_num)
        have h2 := hcl 2 (by norm_num) (by norm_num)
        simp only [BIOMES, List.getD, List.getElem?_cons_zero, List.getElem?_cons_succ,
          Option.getD_some] at h1 h2
        exact closestBiomeIdx_eq_zero v h1 h2
      · have h1 := hcl 0 (by norm_num) (by norm_num)
        have h2 := hcl 2 (by norm_num) (by norm_num)
        simp only [BIOMES, List.getD, List.getElem?_cons_zero, List.getElem?_cons_succ,
          Option.getD_some] at h1 h2
        exact closestBiomeIdx_eq_one v h1 h2
      · have h1 := hcl 0 (by norm_num) (by norm_num)
        have h2 := hcl 1 (by norm_num) (by norm_num)
        simp only [BIOMES, List.getD, List.getElem?_cons_zero, List.getElem?_cons_succ,
          Option.getD_some] at h1 h2
        exact closestBiomeIdx_eq_two v h1 h2
    rw [he, hci]
    simp [BIOMES]

/-- Witness for C6: concrete instantiations at selector 1/2 (normalized
branch) and selector 2 (all raw weights zero, hills strictly closest:
weights collapse to [0, 0, 1]). -/
theorem C6_calculateBiomeWeights_witness :
    ((calculateBiomeWeights (1/2)).length = BIOMES.length ∧
     (∀ w ∈ calculateBiomeWeights (1/2), 0 ≤ w) ∧
     (calculateBiomeWeights (1/2)).sum = 1) ∧
    calculateBiomeWeights 2 = [0, 0, 1] := by
  constructor
  · exact (C6_calculateBiomeWeights (1/2)).1 (by norm_num) (by norm_num)
  · have h := (C6_calculateBiomeWeights 2).2 2 (by simp [BIOMES])
      (by
        intro b hb
        fin_cases hb <;>
          simp only [rawBiomeWeight] <;>
          rw [abs_of_nonneg (by norm_num)] <;>
          norm_num
        )
      (by
        intro j hj hne
        simp only [BIOMES, List.length_cons, List.length_nil] at hj
        interval_cases j
        · simp only [BIOMES, List.getD, List.getElem?_cons_zero, List.getElem?_cons_succ,
            Option.getD_some]
          rw [abs_of_nonneg (by norm_num), abs_of_nonneg (by norm_num)]
          norm_num
        · simp only [BIOMES, List.getD, List.getElem?_cons_zero, List.getElem?_cons_succ,
            Option.getD_some]
          rw [abs_of_nonneg (by norm_num), abs_of_nonneg (by norm_num)]
          norm_num
        · exact absurd rfl hne)
    rw [h]
    simp [BIOMES, List.range_succ]

/-- Fade curve is nonnegative on [0,1]. -/
theorem fade_nonneg (t : ℚ) (h0 : 0 ≤ t) (h1 : t ≤ 1) : 0 ≤ fade t := by
  unfold fade
  nlinarith [sq_nonneg (t - 5/4), mul_nonneg (mul_nonneg h0 h0) h0, sq_nonneg t]

/-- Fade curve is at most 1 on [0,1]. -/
theorem fade_le_one (t : ℚ) (h0 : 0 ≤ t) (h1 : t ≤ 1) : fade t ≤ 1 := by
  unfold fade
  nlinarith [mul_nonneg (mul_nonneg (sub_nonneg.mpr h1) (sub_nonneg.mpr h1)) (sub_nonneg.mpr h1),
    sq_nonneg t, sq_nonneg (1 - t), mul_nonneg h0 h0]

/-- Each gradient dot product is bounded by 2 when the offsets are bounded
by 1. -/
theorem gradIdx_abs_le (k : Nat) (x y z : ℚ) (hx : |x| ≤ 1) (hy : |y| ≤ 1) (hz : |z| ≤ 1) :
    |gradIdx k x y z| ≤ 2 := by
  rw [abs_le] at hx hy hz
  unfold gradIdx
  split <;> (rw [abs_le]; constructor <;> linarith)

/-- Bound on grad under unit-bounded offsets. -/
theorem grad_abs_le (h : Nat) (x y z : ℚ) (hx : |x| ≤ 1) (hy : |y| ≤ 1) (hz : |z| ≤ 1) :
    |grad h x y z| ≤ 2 :=
  gradIdx_abs_le _ x y z hx hy hz

/-- Linear interpolation with parameter in [0,1] stays within any common
bound of its endpoints. -/
theorem lerp_abs_le (a b t M : ℚ) (ha : |a| ≤ M) (hb : |b| ≤ M) (h0 : 0 ≤ t) (h1 : t ≤ 1) :
    |lerp a b t| ≤ M := by
  rw [abs_le] at ha hb ⊢
  unfold lerp
  constructor <;>
    nlinarith [mul_nonneg h0 (by linarith : (0:ℚ) ≤ M - b),
      mul_nonneg h0 (by linarith : (0:ℚ) ≤ b + M),
      mul_nonneg (by linarith : (0:ℚ) ≤ 1 - t) (by linarith : (0:ℚ) ≤ M - a),
      mul_nonneg (by linarith : (0:ℚ) ≤ 1 - t) (by linarith : (0:ℚ) ≤ a + M)]

/-- The raw gradient noise of perlin.js is bounded by 2 in magnitude, for
every permutation table and every rational input. -/
theorem noise_abs_le (p : Perlin) (x y z : ℚ) : |Perlin.noise p x y z| ≤ 2 := by
  have fr : ∀ t : ℚ, 0 ≤ t - (⌊t⌋ : Int) ∧ t - (⌊t⌋ : Int) ≤ 1 := fun t =>
    ⟨by linarith [Int.floor_le t], by linarith [Int.lt_floor_add_one t]⟩
  have habs : ∀ t : ℚ, |t - (⌊t⌋ : Int)| ≤ 1 := fun t =>
    abs_le.mpr ⟨by linarith [(fr t).1], (fr t).2⟩
  have habs1 : ∀ t : ℚ, |t - (⌊t⌋ : Int) - 1| ≤ 1 := fun t =>
    abs_le.mpr ⟨by linarith [(fr t).1], by linarith [(fr t).2]⟩
  have hf0 : ∀ t : ℚ, 0 ≤ fade (t - (⌊t⌋ : Int)) := fun t => fade_nonneg _ (fr t).1 (fr t).2
  have hf1 : ∀ t : ℚ, fade (t - (⌊t⌋ : Int)) ≤ 1 := fun t => fade_le_one _ (fr t).1 (fr t).2
  simp only [Perlin.noise]
  exact lerp_abs_le _ _ _ 2
    (lerp_abs_le _ _ _ 2
      (lerp_abs_le _ _ _ 2 (grad_abs_le _ _ _ _ (habs x) (habs y) (habs z))
        (grad_abs_le _ _ _ _ (habs1 x) (habs y) (habs z)) (hf0 x) (hf1 x))
      (lerp_abs_le _ _ _ 2 (grad_abs_le _ _ _ _ (habs x) (habs1 y) (habs z))
        (grad_abs_le _ _ _ _ (habs1 x) (habs1 y) (habs z)) (hf0 x) (hf1 x))
      (hf0 y) (hf1 y))
    (lerp_abs_le _ _ _ 2
      (lerp_abs_le _ _ _ 2 (grad_abs_le _ _ _ _ (habs x) (habs y) (habs1 z))
        (grad_abs_le _ _ _ _ (habs1 x) (habs y) (habs1 z)) (hf0 x) (hf1 x))
      (lerp_abs_le _ _ _ 2 (grad_abs_le _ _ _ _ (habs x) (habs1 y) (habs1 z))
        (grad_abs_le _ _ _ _ (habs1 x) (habs1 y) (habs1 z)) (hf0 x) (hf1 x))
      (hf0 y) (hf1 y))
    (hf0 z) (hf1 z)

/-- Closed form of the fbm accumulation loop: starting from
(t, f, a, m), after n octaves the state is the accumulated noise sum, the
scaled frequency and amplitude, and the accumulated amplitude sum. -/
theorem fbmLoop_spec (p : Perlin) (x y z pers lac : ℚ) (n : Nat) (t f a m : ℚ) :
    Perlin.fbmLoop p x y z pers lac n (t, f, a, m) =
      (t + Finset.sum (Finset.range n)
             (fun i => a * pers ^ i *
               p.noise (x * (f * lac ^ i)) (y * (f * lac ^ i)) (z * (f * lac ^ i))),
       f * lac ^ n, a * pers ^ n,
       m + a * Finset.sum (Finset.range n) (fun i => pers ^ i)) := by
  induction n generalizing t f a m with
  | zero => simp [Perlin.fbmLoop]
  | succ n ih =>
    rw [Perlin.fbmLoop, ih]
    simp only [Prod.mk.injEq]
    refine ⟨?_, ?_, ?_, ?_⟩
    · rw [Finset.sum_range_succ']
      have hc : ∀ i, (a * pers) * pers ^ i *
            p.noise (x * (f * lac * lac ^ i)) (y * (f * lac * lac ^ i)) (z * (f * lac * lac ^ i)) =
          a * pers ^ (i + 1) *
            p.noise (x * (f * lac ^ (i + 1))) (y * (f * lac ^ (i + 1)))
              (z * (f * lac ^ (i + 1))) := by
        intro i
        have harg : f * lac * lac ^ i = f * lac ^ (i + 1) := by ring
        rw [harg]
        ring
      rw [Finset.sum_congr rfl (fun i _ => hc i)]
      simp only [pow_zero, mul_one]
      ring
    · ring
    · ring
    · rw [Finset.sum_range_succ']
      simp only [pow_zero]
      have hstep : ∀ i ∈ Finset.range n, pers ^ (i + 1) = pers * pers ^ i := fun i _ => by ring
      rw [Finset.sum_congr rfl hstep, ← Finset.mul_sum]
      ring

/-- C7 (amended): fbm returns 0 when octaves = 0; for every octave count it
equals the sum of the octave noise samples (frequency scaled by
lacunarity^i, amplitude by persistence^i) divided by the sum of the
amplitudes used (with the division-by-zero guard returning 0); and for
positive persistence the result is bounded by 2 in magnitude — the bound
the raw noise samples satisfy — rather than by 1 as the original claim
states. -/
theorem C7_fbm_normalized (p : Perlin) (x y z : ℚ) (octaves : Nat) (pers lac : ℚ) :
    (octaves = 0 → Perlin.fbm p x y z octaves pers lac = 0) ∧
    Perlin.fbm p x y z octaves pers lac =
      (if Finset.sum (Finset.range octaves) (fun i => pers ^ i) = 0 then 0
       else Finset.sum (Finset.range octaves)
              (fun i => pers ^ i * p.noise (x * lac ^ i) (y * lac ^ i) (z * lac ^ i)) /
            Finset.sum (Finset.range octaves) (fun i => pers ^ i)) ∧
    (0 < pers → |Perlin.fbm p x y z octaves pers lac| ≤ 2) := by
  have hfbm : Perlin.fbm p x y z octaves pers lac =
      (if Finset.sum (Finset.range octaves) (fun i => pers ^ i) = 0 then 0
       else Finset.sum (Finset.range octaves)
              (fun i => pers ^ i * p.noise (x * lac ^ i) (y * lac ^ i) (z * lac ^ i)) /
            Finset.sum (Finset.range octaves) (fun i => pers ^ i)) := by
    unfold Perlin.fbm
    rw [fbmLoop_spec]
    simp only [one_mul, zero_add]
  refine ⟨?_, hfbm, ?_⟩
  · intro h0
    subst h0
    rw [hfbm]
    simp
  · intro hp
    rcases Nat.eq_zero_or_pos octaves with h0 | hoct
    · subst h0
      rw [hfbm]
      simp
    · have hS : 0 < Finset.sum (Finset.range octaves) (fun i => pers ^ i) :=
        Finset.sum_pos (fun i _ => pow_pos hp i)
          (Finset.nonempty_range_iff.mpr (Nat.pos_iff_ne_zero.mp hoct))
      rw [hfbm, if_neg (ne_of_gt hS), abs_div, abs_of_pos hS, div_le_iff₀ hS]
      calc |Finset.sum (Finset.range octaves)
              (fun i => pers ^ i * p.noise (x * lac ^ i) (y * lac ^ i) (z * lac ^ i))|
          ≤ Finset.sum (Finset.range octaves)
              (fun i => |pers ^ i * p.noise (x * lac ^ i) (y * lac ^ i) (z * lac ^ i)|) :=
            Finset.abs_sum_le_sum_abs _ _
        _ ≤ Finset.sum (Finset.range octaves) (fun i => pers ^ i * 2) := by
            refine Finset.sum_le_sum (fun i _ => ?_)
            rw [abs_mul, abs_of_pos (pow_pos hp i)]
            exact mul_le_mul_of_nonneg_left (noise_abs_le p _ _ _) (le_of_lt (pow_pos hp i))
        _ = 2 * Finset.sum (Finset.range octaves) (fun i => pers ^ i) := by
            rw [← Finset.sum_mul]
            ring

/-- Witness for C7: with an arbitrary permutation table, at octaves 0 the
fbm value is 0, and with persistence 1 the bound applies. -/
theorem C7_fbm_normalized_witness :
    Perlin.fbm ⟨[]⟩ 0 0 0 0 1 1 = 0 ∧ |Perlin.fbm ⟨[]⟩ 0 0 0 0 1 1| ≤ 2 :=
  ⟨(C7_fbm_normalized ⟨[]⟩ 0 0 0 0 1 1).1 rfl,
   (C7_fbm_normalized ⟨[]⟩ 0 0 0 0 1 1).2.2 zero_lt_one⟩

/-- Gradient with all-zero offsets vanishes for every hash. -/
theorem grad_zero_args (h : Nat) : grad h 0 0 0 = 0 := by
  unfold grad gradIdx
  split <;> norm_num

/-- Noise at the origin vanishes for every permutation table. -/
theorem noise_zero_args (p : Perlin) : Perlin.noise p 0 0 0 = 0 := by
  simp [Perlin.noise, fade, lerp, grad_zero_args]

/-- Fade of 0 is 0. -/
theorem fade_zero : fade 0 = 0 := by simp [fade]

/-- Interpolation with parameter 0 returns the first endpoint. -/
theorem lerp_t_zero (a b : ℚ) : lerp a b 0 = a := by simp [lerp]

set_option maxRecDepth 100000 in
/-- Value of the seed-0 noise field at (1/2, 0, 0), computed through the
exact permutation table of generatePermutation 0. -/
theorem noise_seed0_half : Perlin.noise (Perlin.ofSeed 0) (1/2) 0 0 = -(1/2) := by
  have hprm : (Perlin.ofSeed 0).permutation =
      [201, 236, 76, 57, 84, 150, 41, 138, 77, 251, 160, 24, 186, 48, 14, 145, 111, 83, 107, 124, 194, 247, 182, 32, 192, 127, 81, 115, 161, 7, 178, 26, 52, 223, 103, 233, 216, 96, 197, 46, 158, 224, 36, 1, 117, 16, 2, 209, 88, 54, 59, 181, 157, 49, 85, 79, 147, 92, 64, 211, 91, 38, 143, 177, 246, 244, 61, 116, 196, 214, 5, 219, 130, 212, 175, 252, 99, 230, 70, 172, 232, 220, 20, 162, 86, 136, 176, 207, 95, 105, 13, 188, 6, 121, 75, 218, 187, 30, 204, 174, 164, 149, 23, 25, 74, 0, 125, 225, 34, 144, 198, 203, 183, 189, 146, 28, 22, 102, 8, 156, 165, 15, 200, 170, 168, 123, 65, 80, 134, 112, 17, 71, 67, 82, 51, 66, 253, 50, 9, 195, 171, 193, 114, 47, 11, 42, 35, 135, 208, 191, 226, 155, 140, 3, 129, 101, 131, 60, 153, 69, 141, 185, 190, 120, 68, 89, 159, 106, 43, 206, 44, 167, 237, 173, 122, 238, 53, 249, 239, 217, 240, 163, 180, 113, 142, 37, 154, 109, 184, 87, 126, 228, 254, 250, 243, 58, 27, 90, 169, 93, 62, 234, 56, 108, 104, 110, 33, 152, 12, 166, 241, 19, 255, 221, 210, 248, 139, 4, 94, 97, 215, 151, 72, 235, 39, 73, 222, 202, 137, 128, 45, 148, 55, 213, 231, 118, 205, 227, 21, 119, 100, 63, 132, 242, 78, 133, 31, 98, 199, 40, 29, 10, 245, 229, 179, 18, 201, 236, 76, 57, 84, 150, 41, 138, 77, 251, 160, 24, 186, 48, 14, 145, 111, 83, 107, 124, 194, 247, 182, 32, 192, 127, 81, 115, 161, 7, 178, 26, 52, 223, 103, 233, 216, 96, 197, 46, 158, 224, 36, 1, 117, 16, 2, 209, 88, 54, 59, 181, 157, 49, 85, 79, 147, 92, 64, 211, 91, 38, 143, 177, 246, 244, 61, 116, 196, 214, 5, 219, 130, 212, 175, 252, 99, 230, 70, 172, 232, 220, 20, 162, 86, 136, 176, 207, 95, 105, 13, 188, 6, 121, 75, 218, 187, 30, 204, 174, 164, 149, 23, 25, 74, 0, 125, 225, 34, 144, 198, 203, 183, 189, 146, 28, 22, 102, 8, 156, 165, 15, 200, 170, 168, 123, 65, 80, 134, 112, 17, 71, 67, 82, 51, 66, 253, 50, 9, 195, 171, 193, 114, 47, 11, 42, 35, 135, 208, 191, 226, 155, 140, 3, 129, 101, 131, 60, 153, 69, 141, 185, 190, 120, 68, 89, 159, 106, 43, 206, 44, 167, 237, 173, 122, 238, 53, 249, 239, 217, 240, 163, 180, 113, 142, 37, 154, 109, 184, 87, 126, 228, 254, 250, 243, 58, 27, 90, 169, 93, 62, 234, 56, 108, 104, 110, 33, 152, 12, 166, 241, 19, 255, 221, 210, 248, 139, 4, 94, 97, 215, 151, 72, 235, 39, 73, 222, 202, 137, 128, 45, 148, 55, 213, 231, 118, 205, 227, 21, 119, 100, 63, 132, 242, 78, 133, 31, 98, 199, 40, 29, 10, 245, 229, 179, 18] := by decide
  have htab : ∀ i : Nat, (Perlin.ofSeed 0).perm i =
      List.getD [201, 236, 76, 57, 84, 150, 41, 138, 77, 251, 160, 24, 186, 48, 14, 145, 111, 83, 107, 124, 194, 247, 182, 32, 192, 127, 81, 115, 161, 7, 178, 26, 52, 223, 103, 233, 216, 96, 197, 46, 158, 224, 36, 1, 117, 16, 2, 209, 88, 54, 59, 181, 157, 49, 85, 79, 147, 92, 64, 211, 91, 38, 143, 177, 246, 244, 61, 116, 196, 214, 5, 219, 130, 212, 175, 252, 99, 230, 70, 172, 232, 220, 20, 162, 86, 136, 176, 207, 95, 105, 13, 188, 6, 121, 75, 218, 187, 30, 204, 174, 164, 149, 23, 25, 74, 0, 125, 225, 34, 144, 198, 203, 183, 189, 146, 28, 22, 102, 8, 156, 165, 15, 200, 170, 168, 123, 65, 80, 134, 112, 17, 71, 67, 82, 51, 66, 253, 50, 9, 195, 171, 193, 114, 47, 11, 42, 35, 135, 208, 191, 226, 155, 140, 3, 129, 101, 131, 60, 153, 69, 141, 185, 190, 120, 68, 89, 159, 106, 43, 206, 44, 167, 237, 173, 122, 238, 53, 249, 239, 217, 240, 163, 180, 113, 142, 37, 154, 109, 184, 87, 126, 228, 254, 250, 243, 58, 27, 90, 169, 93, 62, 234, 56, 108, 104, 110, 33, 152, 12, 166, 241, 19, 255, 221, 210, 248, 139, 4, 94, 97, 215, 151, 72, 235, 39, 73, 222, 202, 137, 128, 45, 148, 55, 213, 231, 118, 205, 227, 21, 119, 100, 63, 132, 242, 78, 133, 31, 98, 199, 40, 29, 10, 245, 229, 179, 18, 201, 236, 76, 57, 84, 150, 41, 138, 77, 251, 160, 24, 186, 48, 14, 145, 111, 83, 107, 124, 194, 247, 182, 32, 192, 127, 81, 115, 161, 7, 178, 26, 52, 223, 103, 233, 216, 96, 197, 46, 158, 224, 36, 1, 117, 16, 2, 209, 88, 54, 59, 181, 157, 49, 85, 79, 147, 92, 64, 211, 91, 38, 143, 177, 246, 244, 61, 116, 196, 214, 5, 219, 130, 212, 175, 252, 99, 230, 70, 172, 232, 220, 20, 162, 86, 136, 176, 207, 95, 105, 13, 188, 6, 121, 75, 218, 187, 30, 204, 174, 164, 149, 23, 25, 74, 0, 125, 225, 34, 144, 198, 203, 183, 189, 146, 28, 22, 102, 8, 156, 165, 15, 200, 170, 168, 123, 65, 80, 134, 112, 17, 71, 67, 82, 51, 66, 253, 50, 9, 195, 171, 193, 114, 47, 11, 42, 35, 135, 208, 191, 226, 155, 140, 3, 129, 101, 131, 60, 153, 69, 141, 185, 190, 120, 68, 89, 159, 106, 43, 206, 44, 167, 237, 173, 122, 238, 53, 249, 239, 217, 240, 163, 180, 113, 142, 37, 154, 109, 184, 87, 126, 228, 254, 250, 243, 58, 27, 90, 169, 93, 62, 234, 56, 108, 104, 110, 33, 152, 12, 166, 241, 19, 255, 221, 210, 248, 139, 4, 94, 97, 215, 151, 72, 235, 39, 73, 222, 202, 137, 128, 45, 148, 55, 213, 231, 118, 205, 227, 21, 119, 100, 63, 132, 242, 78, 133, 31, 98, 199, 40, 29, 10, 245, 229, 179, 18] i 0 := fun i => by rw [Perlin.perm, hprm]
  have e0 : (Perlin.ofSeed 0).perm 0 = 201 := by rw [htab]; rfl
  have e1 : (Perlin.ofSeed 0).perm 1 = 236 := by rw [htab]; rfl
  have e201 : (Perlin.ofSeed 0).perm 201 = 234 := by rw [htab]; rfl
  have e202 : (Perlin.ofSeed 0).perm 202 = 56 := by rw [htab]; rfl
  have e236 : (Perlin.ofSeed 0).perm 236 = 205 := by rw [htab]; rfl
  have e237 : (Perlin.ofSeed 0).perm 237 = 227 := by rw [htab]; rfl
  have e234 : (Perlin.ofSeed 0).perm 234 = 231 := by rw [htab]; rfl
  have e205 : (Perlin.ofSeed 0).perm 205 = 110 := by rw [htab]; rfl
  have e56 : (Perlin.ofSeed 0).perm 56 = 147 := by rw [htab]; rfl
  have e227 : (Perlin.ofSeed 0).perm 227 = 202 := by rw [htab]; rfl
  have e235 : (Perlin.ofSeed 0).perm 235 = 118 := by rw [htab]; rfl
  have e206 : (Perlin.ofSeed 0).perm 206 = 33 := by rw [htab]; rfl
  have e57 : (Perlin.ofSeed 0).perm 57 = 92 := by rw [htab]; rfl
  have e228 : (Perlin.ofSeed 0).perm 228 = 137 := by rw [htab]; rfl
  have hx : (⌊(1/2 : ℚ)⌋ : Int) = 0 := by norm_num
  have ha231 : 231 &&& 15 = 7 := by rfl
  have ha110 : 110 &&& 15 = 14 := by rfl
  have ha147 : 147 &&& 15 = 3 := by rfl
  have ha202 : 202 &&& 15 = 10 := by rfl
  have ha118 : 118 &&& 15 = 6 := by rfl
  have ha33 : 33 &&& 15 = 1 := by rfl
  have ha92 : 92 &&& 15 = 12 := by rfl
  have ha137 : 137 &&& 15 = 9 := by rfl
  simp only [Perlin.noise, hx, Int.floor_zero, Int.cast_zero, sub_zero, zero_sub]
  norm_num [e0, e1, e201, e202, e236, e237, e234, e205, e56, e227, e235, e206, e57, e228,
    grad, gradIdx, fade_zero, lerp_t_zero, fade, lerp,
    ha231, ha110, ha147, ha202, ha118, ha33, ha92, ha137]


/-- Counterexample for C7: the claim asserts that for all inputs and
parameters with octaves >= 1 the fbm value lies within [-1,1]; with seed 0,
input (1/2, 0, 0), octaves 2, persistence -3/4 and lacunarity 0 the value
is -2. -/
theorem C7_fbm_counterexample :
    ¬ (∀ (seed : Int) (x y z : ℚ) (octaves : Nat) (pers lac : ℚ), 1 ≤ octaves →
        -1 ≤ Perlin.fbm (Perlin.ofSeed seed) x y z octaves pers lac ∧
        Perlin.fbm (Perlin.ofSeed seed) x y z octaves pers lac ≤ 1) := by
  intro h
  have hval : Perlin.fbm (Perlin.ofSeed 0) (1/2) 0 0 2 (-(3/4)) 0 = -2 := by
    have he := (C7_fbm_normalized (Perlin.ofSeed 0) (1/2) 0 0 2 (-(3/4)) 0).2.1
    rw [he]
    norm_num [Finset.sum_range_succ, noise_seed0_half, noise_zero_args]
  have h2 := (h 0 (1/2) 0 0 2 (-(3/4)) 0 (by norm_num)).1
  rw [hval] at h2
  norm_num at h2

/-- Counterexample for C1: the claim asserts a transparent block's face is
never suppressed against opaque neighbors; in the mesh builder a water
block (id 3, transparent) next to a stone block (id 2, opaque) renders no
face, because the culling rule only fires for air/unknown neighbors or for
transparent neighbors of opaque blocks. -/
theorem C1_counterexample :
    ¬ (∀ (blockTypes : Int → Option BlockType) (currentBlockID neighbourBlockID : Int)
        (ct nt : BlockType),
        blockTypes currentBlockID = some ct → ct.transparent = true →
        blockTypes neighbourBlockID = some nt → nt.transparent = false →
        shouldRenderFace blockTypes ct neighbourBlockID = true) := by
  intro h
  have h2 := h BLOCK_TYPES 3 2 ⟨3, "water", true⟩ ⟨2, "stone", false⟩ rfl rfl rfl rfl
  simp [shouldRenderFace, BLOCK_TYPES, BLOCK_AIR] at h2

/-- C1 (amended): a transparent block's face IS suppressed against opaque
neighbors — a transparent current block emits a face exactly toward air or
unknown neighbors; concretely, a single water cell whose four lateral
neighbors are stone produces only its two vertical faces (2 quads, 12
indices) in the transparent bucket and nothing in the opaque bucket. -/
theorem C1_transparent_face_suppressed :
    (∀ (blockTypes : Int → Option BlockType) (ct : BlockType) (nid : Int),
      ct.transparent = true →
      (shouldRenderFace blockTypes ct nid = true ↔
        (nid = BLOCK_AIR ∨ blockTypes nid = none))) ∧
    ((buildMeshGeometryData 1 1 (fun _ _ _ => 3)
        (some (fun k => if k = (1, 0) ∨ k = (-1, 0) ∨ k = (0, 1) ∨ k = (0, -1)
          then some ⟨some (fun _ _ _ => 2)⟩ else none))
        BLOCK_TYPES).trn.map (fun g => g.indices.length) = some 12) ∧
    (buildMeshGeometryData 1 1 (fun _ _ _ => 3)
        (some (fun k => if k = (1, 0) ∨ k = (-1, 0) ∨ k = (0, 1) ∨ k = (0, -1)
          then some ⟨some (fun _ _ _ => 2)⟩ else none))
        BLOCK_TYPES).opq = none := by
  refine ⟨?_, by decide, by decide⟩
  intro blockTypes ct nid hct
  unfold shouldRenderFace
  cases hbt : blockTypes nid with
  | none => simp [hbt]
  | some nt =>
    by_cases hair : nid = BLOCK_AIR
    · simp [hair, hbt]
    · simp [hair, hbt, hct]

/-- Witness for C1: water against air emits a face, water against stone
does not. -/
theorem C1_transparent_face_suppressed_witness :
    shouldRenderFace BLOCK_TYPES ⟨3, "water", true⟩ (-1) = true ∧
    shouldRenderFace BLOCK_TYPES ⟨3, "water", true⟩ 2 = false := by
  constructor
  · exact (C1_transparent_face_suppressed.1 BLOCK_TYPES ⟨3, "water", true⟩ (-1) rfl).mpr
      (Or.inl rfl)
  · have hne : ¬ shouldRenderFace BLOCK_TYPES ⟨3, "water", true⟩ 2 = true := by
      intro hc
      rcases (C1_transparent_face_suppressed.1 BLOCK_TYPES ⟨3, "water", true⟩ 2 rfl).mp hc with
        h | h
      · exact absurd h (by decide)
      · exact absurd h (by simp [BLOCK_TYPES, BLOCK_AIR])
    exact Bool.not_eq_true _ ▸ hne

/-- C4: the face-emission rules of buildMeshGeometryData — air/unknown
neighbors always get a face; an opaque block next to a transparent
neighbor gets a face, and the bucket follows the current block's
transparency flag (opaque bucket for an opaque block); transparent next to
transparent (any id) never gets a face; vertical out-of-bounds cells, and
lateral cells with missing neighbour data, resolve to air. -/
theorem C4_face_rules :
    (∀ (blockTypes : Int → Option BlockType) (ct : BlockType) (nid : Int),
      nid = BLOCK_AIR ∨ blockTypes nid = none →
      shouldRenderFace blockTypes ct nid = true) ∧
    (∀ (blockTypes : Int → Option BlockType) (ct nt : BlockType) (nid : Int),
      blockTypes nid = some nt → nt.transparent = true → ct.transparent = false →
      shouldRenderFace blockTypes ct nid = true ∧ bucketIsTransparent ct = false) ∧
    (∀ (blockTypes : Int → Option BlockType) (ct nt : BlockType) (nid : Int),
      nid ≠ BLOCK_AIR → blockTypes nid = some nt → nt.transparent = true →
      ct.transparent = true → shouldRenderFace blockTypes ct nid = false) ∧
    (∀ (chunkSize chunkHeight : Int) (blocks : BlocksGrid) (nd : Option NeighbourData)
       (lx ly lz : Int), ly < 0 ∨ chunkHeight ≤ ly →
       workerGetBlock chunkSize chunkHeight blocks nd lx ly lz = BLOCK_AIR) ∧
    (∀ (chunkSize chunkHeight : Int) (blocks : BlocksGrid) (lx ly lz : Int),
       ¬ (0 ≤ lx ∧ lx < chunkSize ∧ 0 ≤ lz ∧ lz < chunkSize) →
       workerGetBlock chunkSize chunkHeight blocks none lx ly lz = BLOCK_AIR) ∧
    (∀ (chunkSize chunkHeight : Int) (blocks : BlocksGrid) (nd : NeighbourData)
       (lx ly lz : Int),
       ¬ (0 ≤ lx ∧ lx < chunkSize ∧ 0 ≤ lz ∧ lz < chunkSize) →
       nd (Int.fdiv lx chunkSize, Int.fdiv lz chunkSize) = none →
       workerGetBlock chunkSize chunkHeight blocks (some nd) lx ly lz = BLOCK_AIR) := by
  refine ⟨?_, ?_, ?_, ?_, ?_, ?_⟩
  · intro blockTypes ct nid hor
    rcases hor with h | h <;> simp [shouldRenderFace, h] <;>
      (cases blockTypes BLOCK_AIR <;> rfl)
  · intro blockTypes ct nt nid hbt hnt hct
    refine ⟨?_, by simp [bucketIsTransparent, hct]⟩
    by_cases hair : nid = BLOCK_AIR
    · simp only [shouldRenderFace, hair, hbt]
      cases hb2 : blockTypes BLOCK_AIR <;> simp [hb2]
    · simp [shouldRenderFace, hair, hbt, hnt, hct]
  · intro blockTypes ct nt nid hair hbt hnt hct
    simp [shouldRenderFace, hair, hbt, hnt, hct]
  · intro cs ch blocks nd lx ly lz hy
    unfold workerGetBlock
    rw [if_pos hy]
  · intro cs ch blocks lx ly lz hout
    unfold workerGetBlock
    by_cases hy : ly < 0 ∨ ch ≤ ly
    · rw [if_pos hy]
    · rw [if_neg hy, if_neg hout]
  · intro cs ch blocks nd lx ly lz hout hnone
    unfold workerGetBlock
    by_cases hy : ly < 0 ∨ ch ≤ ly
    · rw [if_pos hy]
    · rw [if_neg hy, if_neg hout]
      simp [hnone]

/-- Witness for C4: stone next to air and next to water emits (opaque
bucket), water next to water does not; out-of-bounds and missing-neighbour
lookups give air. -/
theorem C4_face_rules_witness :
    shouldRenderFace BLOCK_TYPES ⟨2, "stone", false⟩ (-1) = true ∧
    (shouldRenderFace BLOCK_TYPES ⟨2, "stone", false⟩ 3 = true ∧
      bucketIsTransparent ⟨2, "stone", false⟩ = false) ∧
    shouldRenderFace BLOCK_TYPES ⟨3, "water", true⟩ 3 = false ∧
    workerGetBlock 16 64 (fun _ _ _ => 2) none 0 (-1) 0 = BLOCK_AIR ∧
    workerGetBlock 16 64 (fun _ _ _ => 2) none (-1) 5 0 = BLOCK_AIR ∧
    workerGetBlock 16 64 (fun _ _ _ => 2) (some (fun _ => none)) 16 5 0 = BLOCK_AIR :=
  ⟨C4_face_rules.1 BLOCK_TYPES _ (-1) (Or.inl rfl),
   C4_face_rules.2.1 BLOCK_TYPES _ ⟨3, "water", true⟩ 3 rfl rfl rfl,
   C4_face_rules.2.2.1 BLOCK_TYPES _ ⟨3, "water", true⟩ 3 (by decide) rfl rfl rfl,
   C4_face_rules.2.2.2.1 16 64 _ none 0 (-1) 0 (Or.inl (by decide)),
   C4_face_rules.2.2.2.2.1 16 64 _ (-1) 5 0 (by decide),
   C4_face_rules.2.2.2.2.2 16 64 _ (fun _ => none) 16 5 0 (by decide) rfl⟩

/-- C9: getBlock returns AIR whenever y is outside [0, CHUNK_HEIGHT), or
the containing chunk record is absent, or its block data is not yet loaded
(blocks null or state below DATA_LOADED); otherwise it returns the block
id stored at the corresponding local cell of the owning chunk. -/
theorem C9_getBlock (st : WorldState) (x y z : Int) :
    ((y < 0 ∨ CHUNK_HEIGHT ≤ y) → getBlock st x y z = BLOCK_AIR) ∧
    (getChunk st (Int.fdiv x CHUNK_SIZE) (Int.fdiv z CHUNK_SIZE) = none →
      getBlock st x y z = BLOCK_AIR) ∧
    (∀ c, getChunk st (Int.fdiv x CHUNK_SIZE) (Int.fdiv z CHUNK_SIZE) = some c →
      (c.blocks = none ∨ c.state < CHUNK_STATE.DATA_LOADED) →
      getBlock st x y z = BLOCK_AIR) ∧
    (∀ c b, getChunk st (Int.fdiv x CHUNK_SIZE) (Int.fdiv z CHUNK_SIZE) = some c →
      c.blocks = some b → CHUNK_STATE.DATA_LOADED ≤ c.state →
      0 ≤ y → y < CHUNK_HEIGHT →
      getBlock st x y z = b (Int.emod x CHUNK_SIZE) y (Int.emod z CHUNK_SIZE)) := by
  refine ⟨?_, ?_, ?_, ?_⟩
  · intro hy
    unfold getBlock worldToVoxelCoords
    simp only []
    rw [if_pos hy]
  · intro hch
    unfold getBlock worldToVoxelCoords
    simp only [hch]
    split_ifs with hy <;> rfl
  · intro c hch hbad
    unfold getBlock worldToVoxelCoords
    rcases hbad with hb | hs
    · simp only [hch, hb]
      split_ifs with hy <;> rfl
    · cases hcb : c.blocks with
      | none =>
        simp only [hch, hcb]
        split_ifs with hy <;> rfl
      | some b =>
        simp only [hch, hcb]
        split_ifs with hy hlt <;> first | rfl | omega
  · intro c b hch hb hst hy0 hy1
    unfold getBlock worldToVoxelCoords
    simp only [hch, hb]
    rw [if_neg (by omega : ¬ (y < 0 ∨ CHUNK_HEIGHT ≤ y)), if_neg (not_lt.mpr hst)]

/-- Witness for C9: a loaded chunk at (0,0) answers the stored id at world
(5,10,5); the empty store answers AIR below the world and at missing
chunks. -/
theorem C9_getBlock_witness :
    getBlock ⟨[((0, 0), ⟨0, 0, some (fun _ _ _ => 7), none, 2⟩)], [], []⟩ 5 10 5 = 7 ∧
    getBlock WorldState.init 0 (-1) 0 = BLOCK_AIR ∧
    getBlock WorldState.init 3 10 3 = BLOCK_AIR := by
  refine ⟨?_, ?_, ?_⟩
  · exact (C9_getBlock ⟨[((0, 0), ⟨0, 0, some (fun _ _ _ => 7), none, 2⟩)], [], []⟩ 5 10 5).2.2.2
      _ _ rfl rfl (by decide) (by decide) (by decide)
  · exact (C9_getBlock WorldState.init 0 (-1) 0).1 (Or.inl (by decide))
  · exact (C9_getBlock WorldState.init 3 10 3).2.1 rfl

/-- C10: an in-bounds addBlock on a loaded chunk whose stored id already
equals the written id is a complete no-op — the returned world state (block
grids, chunk states, meshes, rebuild queue, outbox) is the input state. -/
theorem C10_addBlock_same_id_noop (st : WorldState) (x y z id : Int) (c : Chunk) (b : BlocksGrid)
    (hch : getChunk st (Int.fdiv x CHUNK_SIZE) (Int.fdiv z CHUNK_SIZE) = some c)
    (hb : c.blocks = some b) (hst : CHUNK_STATE.DATA_LOADED ≤ c.state)
    (hy0 : 0 ≤ y) (hy1 : y < CHUNK_HEIGHT)
    (hsame : b (Int.emod x CHUNK_SIZE) y (Int.emod z CHUNK_SIZE) = id) :
    addBlock st x y z id = st := by
  unfold addBlock worldToVoxelCoords
  simp only [hch, hb]
  rw [if_neg (by omega : ¬ (y < 0 ∨ CHUNK_HEIGHT ≤ y)), if_neg (not_lt.mpr hst), if_pos hsame]

/-- Witness for C10: writing the already-stored id 7 at world (5,10,5)
leaves the concrete one-chunk store unchanged. -/
theorem C10_addBlock_same_id_noop_witness :
    addBlock ⟨[((0, 0), ⟨0, 0, some (fun _ _ _ => 7), none, 2⟩)], [], []⟩ 5 10 5 7 =
      ⟨[((0, 0), ⟨0, 0, some (fun _ _ _ => 7), none, 2⟩)], [], []⟩ :=
  C10_addBlock_same_id_noop _ 5 10 5 7 _ _ rfl rfl (by decide) (by decide) (by decide) rfl

/-- C3: a generation or meshing task whose computation throws is caught at
the worker boundary and reported as the structured error message (the
worker posts exactly that message instead of crashing), and the main
thread's error handler leaves the chunk store exactly as it was — no chunk
is marked READY or DATA_LOADED on failure. -/
theorem C3_worker_failure (st : WorldState)
    (runGenerate : Int → Int → Except String BlocksGrid)
    (runMesh : WorkerIn → Except String GeometryData) (e : String) :
    (∀ cx cz, runGenerate cx cz = Except.error e →
      workerOnMessage runGenerate runMesh (WorkerIn.generate cx cz) =
        [WorkerMsg.errorMsg e] ∧
      handleWorkerMessage st (WorkerMsg.errorMsg e) = st) ∧
    (∀ cx cz blocks chunkSize chunkHeight nd,
      runMesh (WorkerIn.mesh cx cz blocks chunkSize chunkHeight nd) = Except.error e →
      workerOnMessage runGenerate runMesh
        (WorkerIn.mesh cx cz blocks chunkSize chunkHeight nd) = [WorkerMsg.errorMsg e] ∧
      handleWorkerMessage st (WorkerMsg.errorMsg e) = st) := by
  constructor
  · intro cx cz hf
    exact ⟨by simp only [workerOnMessage, hf], rfl⟩
  · intro cx cz blocks chunkSize chunkHeight nd hf
    exact ⟨by simp only [workerOnMessage, hf], rfl⟩

/-- Witness for C3: concrete failing generation and meshing computations
produce exactly the error message, and the error message leaves the
initial store untouched. -/
theorem C3_worker_failure_witness :
    workerOnMessage (fun _ _ => Except.error "boom") (fun _ => Except.error "boom")
        (WorkerIn.generate 0 0) = [WorkerMsg.errorMsg "boom"] ∧
    handleWorkerMessage WorldState.init (WorkerMsg.errorMsg "boom") = WorldState.init ∧
    workerOnMessage (fun _ _ => Except.error "boom") (fun _ => Except.error "boom")
        (WorkerIn.mesh 0 0 (fun _ _ _ => 0) 16 64 none) = [WorkerMsg.errorMsg "boom"] := by
  have h := C3_worker_failure WorldState.init (fun _ _ => Except.error "boom")
    (fun _ => Except.error "boom") "boom"
  exact ⟨(h.1 0 0 rfl).1, (h.1 0 0 rfl).2, (h.2 0 0 (fun _ _ _ => 0) 16 64 none rfl).1⟩

theorem mapGet_mapSet_self (m : List ((Int × Int) × Chunk)) (k : Int × Int) (c : Chunk) :
    mapGet (mapSet m k c) k = some c := by
  induction m with
  | nil => simp [mapGet, mapSet]
  | cons e t ih =>
    obtain ⟨k2, c2⟩ := e
    unfold mapSet
    by_cases h : k2 = k
    · simp [mapGet, h]
    · simp only [if_neg h]
      unfold mapGet
      rw [if_neg h]
      exact ih

theorem mapGet_mapSet_ne (m : List ((Int × Int) × Chunk)) (k k2 : Int × Int) (c : Chunk)
    (h : k2 ≠ k) : mapGet (mapSet m k c) k2 = mapGet m k2 := by
  induction m with
  | nil =>
    unfold mapSet mapGet
    rw [if_neg (fun he => h he.symm)]
    rfl
  | cons e t ih =>
    obtain ⟨k3, c3⟩ := e
    by_cases h3 : k3 = k
    · subst h3
      unfold mapSet
      rw [if_pos rfl]
      unfold mapGet
      rw [if_neg (fun he => h he.symm), if_neg (fun he => h he.symm)]
    · unfold mapSet
      rw [if_neg h3]
      unfold mapGet
      by_cases h4 : k3 = k2
      · rw [if_pos h4, if_pos h4]
      · rw [if_neg h4, if_neg h4]
        exact ih

theorem mapSet_lookup_eq (m : List ((Int × Int) × Chunk)) (k : Int × Int) (c : Chunk)
    (h : mapGet m k = some c) : mapSet m k c = m := by
  induction m with
  | nil => simp [mapGet] at h
  | cons e t ih =>
    obtain ⟨k2, c2⟩ := e
    unfold mapGet at h
    unfold mapSet
    by_cases h2 : k2 = k
    · rw [if_pos h2] at h
      rw [if_pos h2, h2]
      injection h with h
      rw [h]
    · rw [if_neg h2] at h
      rw [if_neg h2, ih h]

theorem mem_of_mapGet (m : List ((Int × Int) × Chunk)) (k : Int × Int) (c : Chunk)
    (h : mapGet m k = some c) : (k, c) ∈ m := by
  induction m with
  | nil => simp [mapGet] at h
  | cons e t ih =>
    obtain ⟨k2, c2⟩ := e
    unfold mapGet at h
    by_cases h2 : k2 = k
    · rw [if_pos h2] at h
      injection h with h
      subst h2 h
      exact List.mem_cons_self _ _
    · rw [if_neg h2] at h
      exact List.mem_cons_of_mem _ (ih h)

theorem mem_mapSet (m : List ((Int × Int) × Chunk)) (k : Int × Int) (c : Chunk)
    (e : (Int × Int) × Chunk) (h : e ∈ mapSet m k c) : e ∈ m ∨ e = (k, c) := by
  induction m with
  | nil => simp [mapSet] at h; exact Or.inr h
  | cons e2 t ih =>
    obtain ⟨k2, c2⟩ := e2
    unfold mapSet at h
    by_cases h2 : k2 = k
    · rw [if_pos h2] at h
      rcases List.mem_cons.mp h with h | h
      · exact Or.inr h
      · exact Or.inl (List.mem_cons_of_mem _ h)
    · rw [if_neg h2] at h
      rcases List.mem_cons.mp h with h | h
      · exact Or.inl (h ▸ List.mem_cons_self _ _)
      · rcases ih h with h | h
        · exact Or.inl (List.mem_cons_of_mem _ h)
        · exact Or.inr h

theorem mem_mapDelete (m : List ((Int × Int) × Chunk)) (k : Int × Int)
    (e : (Int × Int) × Chunk) (h : e ∈ mapDelete m k) : e ∈ m := by
  induction m with
  | nil => simp [mapDelete] at h
  | cons e2 t ih =>
    obtain ⟨k2, c2⟩ := e2
    unfold mapDelete at h
    by_cases h2 : k2 = k
    · rw [if_pos h2] at h
      exact List.mem_cons_of_mem _ h
    · rw [if_neg h2] at h
      rcases List.mem_cons.mp h with h | h
      · exact h ▸ List.mem_cons_self _ _
      · exact List.mem_cons_of_mem _ (ih h)

theorem chunk_eta_state (c : Chunk) (n : Nat) (h : c.state = n) :
    ({ c with state := n } : Chunk) = c := by
  cases c
  cases h
  rfl

theorem requestChunkMesh_queue (st : WorldState) (cx cz : Int) :
    (requestChunkMesh st cx cz).meshRebuildQueue = st.meshRebuildQueue := by
  unfold requestChunkMesh putChunk
  repeat' split
  all_goals rfl

theorem requestChunkMesh_mapGet_ne (st : WorldState) (cx cz : Int) (k : Int × Int)
    (h : k ≠ chunkKey cx cz) :
    mapGet (requestChunkMesh st cx cz).chunkStorage k = mapGet st.chunkStorage k := by
  unfold requestChunkMesh putChunk
  repeat' split
  all_goals first | rfl | (exact mapGet_mapSet_ne _ _ _ _ h)

theorem neighbourBlocksFor_isSome_of_dataOk (st : WorldState) (cx cz dx dz : Int)
    (h : chunkDataOk st (cx + dx, cz + dz) = true) :
    (neighbourBlocksFor st cx cz dx dz).isSome = true := by
  unfold chunkDataOk at h
  unfold neighbourBlocksFor getChunk chunkKey
  cases hm : mapGet st.chunkStorage (cx + dx, cz + dz) with
  | none =>
    simp only [hm] at h
    exact Bool.noConfusion h
  | some c =>
    simp only [hm] at h
    simp only [Bool.and_eq_true, decide_eq_true_eq] at h
    obtain ⟨b, hb⟩ := Option.isSome_iff_exists.mp h.1
    simp only [hm, hb]
    rw [if_neg (not_lt.mpr h.2)]
    rfl

theorem getNeighbourData_some_of_dataOk (st : WorldState) (cx cz : Int)
    (h : ∀ o ∈ ([(1, 0), (-1, 0), (0, 1), (0, -1)] : List (Int × Int)),
      chunkDataOk st (cx + o.1, cz + o.2) = true) :
    ∃ nd, getNeighbourDataForMeshing st cx cz = some nd := by
  obtain ⟨b1, hb1⟩ := Option.isSome_iff_exists.mp
    (neighbourBlocksFor_isSome_of_dataOk st cx cz 1 0 (h (1, 0) (by simp)))
  obtain ⟨b2, hb2⟩ := Option.isSome_iff_exists.mp
    (neighbourBlocksFor_isSome_of_dataOk st cx cz (-1) 0 (h (-1, 0) (by simp)))
  obtain ⟨b3, hb3⟩ := Option.isSome_iff_exists.mp
    (neighbourBlocksFor_isSome_of_dataOk st cx cz 0 1 (h (0, 1) (by simp)))
  obtain ⟨b4, hb4⟩ := Option.isSome_iff_exists.mp
    (neighbourBlocksFor_isSome_of_dataOk st cx cz 0 (-1) (h (0, -1) (by simp)))
  unfold getNeighbourDataForMeshing
  rw [hb1, hb2, hb3, hb4]
  exact ⟨_, rfl⟩

theorem getNeighbourData_none_of_missing (st : WorldState) (cx cz : Int)
    (h : neighbourBlocksFor st cx cz 1 0 = none ∨ neighbourBlocksFor st cx cz (-1) 0 = none ∨
         neighbourBlocksFor st cx cz 0 1 = none ∨ neighbourBlocksFor st cx cz 0 (-1) = none) :
    getNeighbourDataForMeshing st cx cz = none := by
  unfold getNeighbourDataForMeshing
  rcases h with h | h | h | h
  · rw [h]
    rfl
  · cases hA : neighbourBlocksFor st cx cz 1 0 with
    | none => rfl
    | some b1 => rw [h]; rfl
  · cases hA : neighbourBlocksFor st cx cz 1 0 with
    | none => rfl
    | some b1 =>
      cases hB : neighbourBlocksFor st cx cz (-1) 0 with
      | none => rfl
      | some b2 => rw [h]; rfl
  · cases hA : neighbourBlocksFor st cx cz 1 0 with
    | none => rfl
    | some b1 =>
      cases hB : neighbourBlocksFor st cx cz (-1) 0 with
      | none => rfl
      | some b2 =>
        cases hC : neighbourBlocksFor st cx cz 0 1 with
        | none => rfl
        | some b3 => rw [h]; rfl

theorem chunk_eta_blocks_state (c : Chunk) (b : Option BlocksGrid) (n : Nat)
    (hb : c.blocks = b) (hs : c.state = n) :
    ({ cx := c.cx, cz := c.cz, blocks := b, mesh := c.mesh, state := n } : Chunk) = c := by
  subst hb hs
  rfl

theorem requestChunkMesh_defer (st : WorldState) (cx cz : Int) (chunk : Chunk) (b : BlocksGrid)
    (hc : getChunk st cx cz = some chunk) (hb : chunk.blocks = some b)
    (hs : chunk.state = CHUNK_STATE.DATA_LOADED)
    (hn : getNeighbourDataForMeshing st cx cz = none) :
    requestChunkMesh st cx cz = st := by
  unfold requestChunkMesh
  simp only [hc, hb, hn]
  split_ifs with h1
  · rfl
  · unfold putChunk
    rw [chunk_eta_blocks_state chunk (some b) CHUNK_STATE.DATA_LOADED hb hs,
      mapSet_lookup_eq st.chunkStorage (chunkKey cx cz) chunk hc]

theorem requestChunkMesh_fire (st : WorldState) (cx cz : Int) (chunk : Chunk) (b : BlocksGrid)
    (hc : getChunk st cx cz = some chunk) (hb : chunk.blocks = some b)
    (hs : chunk.state = CHUNK_STATE.DATA_LOADED)
    (hn : ∀ o ∈ ([(1, 0), (-1, 0), (0, 1), (0, -1)] : List (Int × Int)),
      chunkDataOk st (cx + o.1, cz + o.2) = true) :
    getChunk (requestChunkMesh st cx cz) cx cz =
      some { chunk with state := CHUNK_STATE.MESHING } := by
  obtain ⟨nd, hnd⟩ := getNeighbourData_some_of_dataOk st cx cz hn
  unfold requestChunkMesh
  simp only [hc, hb, hnd]
  split_ifs with h1
  · rw [hs] at h1
    exact absurd h1 (by decide)
  · unfold getChunk putChunk
    exact mapGet_mapSet_self _ _ _

theorem requestChunkMesh_noop_none (st : WorldState) (cx cz : Int)
    (hc : getChunk st cx cz = none) : requestChunkMesh st cx cz = st := by
  unfold requestChunkMesh
  simp only [hc]

theorem requestChunkMesh_noop_noblocks (st : WorldState) (cx cz : Int) (chunk : Chunk)
    (hc : getChunk st cx cz = some chunk) (hb : chunk.blocks = none) :
    requestChunkMesh st cx cz = st := by
  unfold requestChunkMesh
  simp only [hc, hb]

theorem requestChunkMesh_noop_guard (st : WorldState) (cx cz : Int) (chunk : Chunk)
    (b : BlocksGrid) (hc : getChunk st cx cz = some chunk) (hb : chunk.blocks = some b)
    (hg : chunk.state < CHUNK_STATE.DATA_LOADED ∨ chunk.state = CHUNK_STATE.MESHING) :
    requestChunkMesh st cx cz = st := by
  unfold requestChunkMesh
  simp only [hc, hb]
  rw [if_pos hg]

theorem requestChunkMesh_dataOk (st : WorldState) (cx cz : Int) (k : Int × Int)
    (h : chunkDataOk st k = true) : chunkDataOk (requestChunkMesh st cx cz) k = true := by
  by_cases hk : k = chunkKey cx cz
  case neg =>
    unfold chunkDataOk at h ⊢
    rw [requestChunkMesh_mapGet_ne st cx cz k hk]
    exact h
  case pos =>
    subst hk
    cases hc : getChunk st cx cz with
    | none => rw [requestChunkMesh_noop_none st cx cz hc]; exact h
    | some chunk =>
      cases hb : chunk.blocks with
      | none => rw [requestChunkMesh_noop_noblocks st cx cz chunk hc hb]; exact h
      | some b =>
        by_cases hg : chunk.state < CHUNK_STATE.DATA_LOADED ∨ chunk.state = CHUNK_STATE.MESHING
        · rw [requestChunkMesh_noop_guard st cx cz chunk b hc hb hg]; exact h
        · unfold requestChunkMesh putChunk
          simp only [hc, hb]
          rw [if_neg hg]
          cases hn : getNeighbourDataForMeshing st cx cz with
          | none =>
            unfold chunkDataOk
            rw [mapGet_mapSet_self]
            simp
          | some nd =>
            unfold chunkDataOk
            rw [mapGet_mapSet_self]
            simp only [Option.isSome_some, Bool.true_and]
            rfl

theorem mapSet_mapSet (m : List ((Int × Int) × Chunk)) (k : Int × Int) (a b : Chunk) :
    mapSet (mapSet m k a) k b = mapSet m k b := by
  induction m with
  | nil => simp [mapSet]
  | cons e t ih =>
    obtain ⟨k2, c2⟩ := e
    by_cases h2 : k2 = k <;> simp [mapSet, h2, ih]

theorem handleMeshed_eq (st : WorldState) (cx cz : Int) (g : GeometryData) (chunk : Chunk)
    (hc : getChunk st cx cz = some chunk) (hm : chunk.state = CHUNK_STATE.MESHING) :
    handleWorkerMessage st (WorkerMsg.meshed cx cz g) =
      updateNeighboursOf
        (putChunk st cx cz
          { cx := chunk.cx, cz := chunk.cz, blocks := chunk.blocks, mesh := some g,
            state := CHUNK_STATE.READY }) cx cz := by
  unfold handleWorkerMessage buildMeshFromData
  simp only [hc]
  rw [if_pos hm]
  have h1 : getChunk (putChunk st cx cz { chunk with mesh := some g }) cx cz =
      some { chunk with mesh := some g } := by
    unfold getChunk putChunk
    exact mapGet_mapSet_self _ _ _
  simp only [h1]
  unfold putChunk
  rw [mapSet_mapSet]

theorem updateNeighboursStep_mapGet_ne (cx cz : Int) (s : WorldState) (o : Int × Int)
    (k : Int × Int) (hk : k ≠ (cx + o.1, cz + o.2)) :
    mapGet (updateNeighboursStep cx cz s o).chunkStorage k = mapGet s.chunkStorage k := by
  unfold updateNeighboursStep
  repeat' split
  all_goals first | rfl | (exact requestChunkMesh_mapGet_ne _ _ _ k hk)

theorem updateNeighboursStep_dataOk (cx cz : Int) (s : WorldState) (o : Int × Int)
    (k : Int × Int) (h : chunkDataOk s k = true) :
    chunkDataOk (updateNeighboursStep cx cz s o) k = true := by
  unfold updateNeighboursStep
  repeat' split
  all_goals first | exact h | (exact requestChunkMesh_dataOk _ _ _ k h)

theorem foldNeighbours_mapGet_ne (cx cz : Int) (offs : List (Int × Int)) (s : WorldState)
    (k : Int × Int) (hk : ∀ o ∈ offs, k ≠ (cx + o.1, cz + o.2)) :
    mapGet ((offs.foldl (updateNeighboursStep cx cz) s)).chunkStorage k =
      mapGet s.chunkStorage k := by
  induction offs generalizing s with
  | nil => rfl
  | cons o rest ih =>
    rw [List.foldl_cons, ih _ (fun o2 ho2 => hk o2 (List.mem_cons_of_mem _ ho2)),
      updateNeighboursStep_mapGet_ne cx cz s o k (hk o (List.mem_cons_self _ _))]

theorem foldNeighbours_meshes (cx cz : Int) (offs : List (Int × Int)) :
    ∀ (s : WorldState) (D : Int × Int) (dchunk : Chunk) (db : BlocksGrid),
    D ∈ offs → offs.Nodup →
    getChunk s (cx + D.1) (cz + D.2) = some dchunk →
    dchunk.state = CHUNK_STATE.DATA_LOADED →
    dchunk.blocks = some db →
    (∀ o ∈ ([(1, 0), (-1, 0), (0, 1), (0, -1)] : List (Int × Int)),
      chunkDataOk s (cx + D.1 + o.1, cz + D.2 + o.2) = true) →
    getChunk (offs.foldl (updateNeighboursStep cx cz) s) (cx + D.1) (cz + D.2) =
      some { dchunk with state := CHUNK_STATE.MESHING } := by
  induction offs with
  | nil => intro s D dchunk db hmem; exact absurd hmem (List.not_mem_nil _)
  | cons o rest ih =>
    intro s D dchunk db hmem hnd hD hDs hDb hok
    rw [List.foldl_cons]
    by_cases ho : o = D
    · subst ho
      have hstep : updateNeighboursStep cx cz s o = requestChunkMesh s (cx + o.1) (cz + o.2) := by
        unfold updateNeighboursStep
        simp only [hD]
        rw [if_pos hDs]
      have hfire := requestChunkMesh_fire s (cx + o.1) (cz + o.2) dchunk db hD hDb hDs
        (fun o2 ho2 => hok o2 ho2)
      have hkeys : ∀ o2 ∈ rest, ((cx + o.1, cz + o.2) : Int × Int) ≠ (cx + o2.1, cz + o2.2) := by
        intro o2 ho2 heq
        have ho12 : o = o2 := by
          obtain ⟨a, b⟩ := o
          obtain ⟨a2, b2⟩ := o2
          simp only [Prod.mk.injEq] at heq ⊢
          omega
        exact (List.nodup_cons.mp hnd).1 (ho12 ▸ ho2)
      unfold getChunk chunkKey
      rw [foldNeighbours_mapGet_ne cx cz rest _ _ hkeys, hstep]
      unfold getChunk chunkKey at hfire
      exact hfire
    · have hne : ((cx + D.1, cz + D.2) : Int × Int) ≠ (cx + o.1, cz + o.2) := by
        intro heq
        apply ho
        obtain ⟨a, b⟩ := o
        obtain ⟨c, d⟩ := D
        simp only [Prod.mk.injEq] at heq ⊢
        omega
      have hD2 : getChunk (updateNeighboursStep cx cz s o) (cx + D.1) (cz + D.2) =
          some dchunk := by
        unfold getChunk chunkKey
        rw [updateNeighboursStep_mapGet_ne cx cz s o _ hne]
        exact hD
      have hok2 : ∀ o2 ∈ ([(1, 0), (-1, 0), (0, 1), (0, -1)] : List (Int × Int)),
          chunkDataOk (updateNeighboursStep cx cz s o) (cx + D.1 + o2.1, cz + D.2 + o2.2) =
            true :=
        fun o2 ho2 => updateNeighboursStep_dataOk cx cz s o _ (hok o2 ho2)
      have hmem2 : D ∈ rest := by
        rcases List.mem_cons.mp hmem with h | h
        · exact absurd h.symm ho
        · exact h
      exact ih (updateNeighboursStep cx cz s o) D dchunk db hmem2
        (List.nodup_cons.mp hnd).2 hD2 hDs hDb hok2

theorem putChunk_mapGet_self (st : WorldState) (cx cz : Int) (c : Chunk) :
    mapGet (putChunk st cx cz c).chunkStorage (chunkKey cx cz) = some c :=
  mapGet_mapSet_self _ _ _

theorem putChunk_mapGet_ne (st : WorldState) (cx cz : Int) (c : Chunk) (k : Int × Int)
    (h : k ≠ chunkKey cx cz) :
    mapGet (putChunk st cx cz c).chunkStorage k = mapGet st.chunkStorage k :=
  mapGet_mapSet_ne _ _ _ _ h

/-- C2 (amended): the defer half of the claim holds as stated: a mesh request
for a DATA_LOADED chunk with blocks whose lateral neighbour data is incomplete
returns the state unchanged (the chunk stays DATA_LOADED, nothing is posted).
The retrigger half holds for the meshed message, not the generated one: when a
meshed result for chunk N arrives, each lateral neighbour D of N that sits in
DATA_LOADED with blocks and whose own four lateral neighbours all have data is
moved to MESHING (a mesh task fires for it) by updateNeighboursOf. -/
theorem C2_defer_and_meshed_retrigger :
    (∀ (st : WorldState) (cx cz : Int) (chunk : Chunk) (b : BlocksGrid),
      getChunk st cx cz = some chunk → chunk.blocks = some b →
      chunk.state = CHUNK_STATE.DATA_LOADED →
      (neighbourBlocksFor st cx cz 1 0 = none ∨ neighbourBlocksFor st cx cz (-1) 0 = none ∨
       neighbourBlocksFor st cx cz 0 1 = none ∨ neighbourBlocksFor st cx cz 0 (-1) = none) →
      requestChunkMesh st cx cz = st) ∧
    (∀ (st : WorldState) (cx cz : Int) (g : GeometryData) (nchunk : Chunk) (D : Int × Int)
       (dchunk : Chunk) (db : BlocksGrid),
      getChunk st cx cz = some nchunk → nchunk.state = CHUNK_STATE.MESHING →
      nchunk.blocks.isSome = true →
      D ∈ ([(1, 0), (-1, 0), (0, 1), (0, -1)] : List (Int × Int)) →
      getChunk st (cx + D.1) (cz + D.2) = some dchunk →
      dchunk.state = CHUNK_STATE.DATA_LOADED → dchunk.blocks = some db →
      (∀ o ∈ ([(1, 0), (-1, 0), (0, 1), (0, -1)] : List (Int × Int)),
        chunkDataOk st (cx + D.1 + o.1, cz + D.2 + o.2) = true) →
      getChunk (handleWorkerMessage st (WorkerMsg.meshed cx cz g)) (cx + D.1) (cz + D.2) =
        some { dchunk with state := CHUNK_STATE.MESHING }) := by
  constructor
  · intro st cx cz chunk b hc hb hs hmiss
    exact requestChunkMesh_defer st cx cz chunk b hc hb hs
      (getNeighbourData_none_of_missing st cx cz hmiss)
  · intro st cx cz g nchunk D dchunk db hN hNs hNb hmem hD hDs hDb hok
    rw [handleMeshed_eq st cx cz g nchunk hN hNs]
    unfold updateNeighboursOf
    have hDnz : D.1 ≠ 0 ∨ D.2 ≠ 0 := by
      fin_cases hmem <;> simp
    have hDne : ((cx + D.1, cz + D.2) : Int × Int) ≠ chunkKey cx cz := by
      unfold chunkKey
      intro heq
      simp only [Prod.mk.injEq] at heq
      rcases hDnz with h | h <;> omega
    have hD2 : getChunk
        (putChunk st cx cz
          { cx := nchunk.cx, cz := nchunk.cz, blocks := nchunk.blocks, mesh := some g,
            state := CHUNK_STATE.READY }) (cx + D.1) (cz + D.2) = some dchunk := by
      unfold getChunk chunkKey
      rw [putChunk_mapGet_ne st cx cz _ _ hDne]
      unfold getChunk chunkKey at hD
      exact hD
    have hpres : ∀ k, chunkDataOk st k = true →
        chunkDataOk
          (putChunk st cx cz
            { cx := nchunk.cx, cz := nchunk.cz, blocks := nchunk.blocks, mesh := some g,
              state := CHUNK_STATE.READY }) k = true := by
      intro k hk
      by_cases hkey : k = chunkKey cx cz
      · subst hkey
        unfold chunkDataOk
        rw [putChunk_mapGet_self]
        simp only [hNb, Bool.true_and, decide_eq_true_eq]
        decide
      · unfold chunkDataOk at hk ⊢
        rw [putChunk_mapGet_ne st cx cz _ k hkey]
        exact hk
    exact foldNeighbours_meshes cx cz _ _ D dchunk db hmem (by decide) hD2 hDs hDb
      (fun o ho => hpres _ (hok o ho))

/-- Witness for C2 (amended): a lone DATA_LOADED chunk with no neighbours
defers (the store is returned unchanged), and a meshed message on a
MESHING chunk drives its DATA_LOADED neighbour — whose own four lateral
neighbours all have data — into MESHING. -/
theorem C2_defer_and_meshed_retrigger_witness :
    requestChunkMesh ⟨[((0, 0), ⟨0, 0, some (fun _ _ _ => 1), none, 2⟩)], [], []⟩ 0 0 =
      ⟨[((0, 0), ⟨0, 0, some (fun _ _ _ => 1), none, 2⟩)], [], []⟩ ∧
    (getChunk (handleWorkerMessage
        ⟨[((0, 0), ⟨0, 0, some (fun _ _ _ => 1), none, 3⟩),
          ((1, 0), ⟨1, 0, some (fun _ _ _ => 1), none, 2⟩),
          ((2, 0), ⟨2, 0, some (fun _ _ _ => 1), none, 2⟩),
          ((1, 1), ⟨1, 1, some (fun _ _ _ => 1), none, 2⟩),
          ((1, -1), ⟨1, -1, some (fun _ _ _ => 1), none, 2⟩)], [], []⟩
        (WorkerMsg.meshed 0 0 ⟨none, none⟩)) (0 + 1) (0 + 0)).map Chunk.state =
      some CHUNK_STATE.MESHING := by
  constructor
  · exact C2_defer_and_meshed_retrigger.1 _ 0 0 _ _ rfl rfl rfl (Or.inl rfl)
  · have h := C2_defer_and_meshed_retrigger.2
      ⟨[((0, 0), ⟨0, 0, some (fun _ _ _ => 1), none, 3⟩),
        ((1, 0), ⟨1, 0, some (fun _ _ _ => 1), none, 2⟩),
        ((2, 0), ⟨2, 0, some (fun _ _ _ => 1), none, 2⟩),
        ((1, 1), ⟨1, 1, some (fun _ _ _ => 1), none, 2⟩),
        ((1, -1), ⟨1, -1, some (fun _ _ _ => 1), none, 2⟩)], [], []⟩
      0 0 ⟨none, none⟩ _ (1, 0) _ _ rfl rfl rfl (by simp) rfl rfl rfl (by decide)
    rw [h]
    rfl

/-- Counterexample to C2 as stated: receipt of chunk data (the generated
message) does NOT re-check neighbours. Concrete store: chunk (1,0) is
LOADING_DATA with no blocks; its neighbour D = (0,0) is DATA_LOADED with
blocks, and all four lateral neighbours of D have data once (1,0) arrives.
After the generated message for (1,0), D still sits in DATA_LOADED: no mesh
request fires. Only the meshed handler calls updateNeighboursOf. -/
theorem C2_counterexample :
    ¬ (∀ (st : WorldState) (cx cz : Int) (blocks : BlocksGrid) (D : Int × Int)
         (dchunk : Chunk) (db : BlocksGrid),
        D ∈ ([(1, 0), (-1, 0), (0, 1), (0, -1)] : List (Int × Int)) →
        getChunk st (cx + D.1) (cz + D.2) = some dchunk →
        dchunk.state = CHUNK_STATE.DATA_LOADED → dchunk.blocks = some db →
        (∀ o ∈ ([(1, 0), (-1, 0), (0, 1), (0, -1)] : List (Int × Int)),
          chunkDataOk (handleWorkerMessage st (WorkerMsg.generated cx cz blocks))
            (cx + D.1 + o.1, cz + D.2 + o.2) = true) →
        ∃ c2, getChunk (handleWorkerMessage st (WorkerMsg.generated cx cz blocks))
            (cx + D.1) (cz + D.2) = some c2 ∧ c2.state = CHUNK_STATE.MESHING) := by
  intro h
  have h2 := h ⟨[((0, 0), ⟨0, 0, some (fun _ _ _ => 1), none, 2⟩),
                 ((-1, 0), ⟨-1, 0, some (fun _ _ _ => 1), none, 2⟩),
                 ((0, 1), ⟨0, 1, some (fun _ _ _ => 1), none, 2⟩),
                 ((0, -1), ⟨0, -1, some (fun _ _ _ => 1), none, 2⟩),
                 ((1, 0), ⟨1, 0, none, none, 1⟩)], [], []⟩
    1 0 (fun _ _ _ => 1) (-1, 0) ⟨0, 0, some (fun _ _ _ => 1), none, 2⟩ (fun _ _ _ => 1)
    (by simp) (by rfl) rfl rfl (by decide)
  obtain ⟨c2, hlook, hstate⟩ := h2
  have hval : (getChunk (handleWorkerMessage
      ⟨[((0, 0), ⟨0, 0, some (fun _ _ _ => 1), none, 2⟩),
        ((-1, 0), ⟨-1, 0, some (fun _ _ _ => 1), none, 2⟩),
        ((0, 1), ⟨0, 1, some (fun _ _ _ => 1), none, 2⟩),
        ((0, -1), ⟨0, -1, some (fun _ _ _ => 1), none, 2⟩),
        ((1, 0), ⟨1, 0, none, none, 1⟩)], [], []⟩
      (WorkerMsg.generated 1 0 (fun _ _ _ => 1)))
      (1 + ((-1, 0) : Int × Int).1) (0 + ((-1, 0) : Int × Int).2)).map Chunk.state =
      some CHUNK_STATE.DATA_LOADED := by decide
  rw [hlook] at hval
  simp only [Option.map_some'] at hval
  injection hval with hval
  rw [hstate] at hval
  exact absurd hval (by decide)

theorem storeInv_of_storage_eq (st1 st2 : WorldState)
    (hs : st2.chunkStorage = st1.chunkStorage) (h : storeInv st1) : storeInv st2 :=
  fun e he => h e (hs ▸ he)

theorem putChunk_storeInv (st : WorldState) (cx cz : Int) (c : Chunk)
    (h : storeInv st) (hc : chunkInv c) : storeInv (putChunk st cx cz c) := by
  intro e he
  rcases mem_mapSet _ _ _ _ he with h1 | h1
  · exact h e h1
  · rw [h1]
    exact hc

theorem storeInv_ite (c : Prop) [Decidable c] (a b : WorldState)
    (ha : storeInv a) (hb : storeInv b) : storeInv (if c then a else b) := by
  split <;> assumption

theorem requestChunkMesh_storeInv (st : WorldState) (cx cz : Int)
    (h : storeInv st) : storeInv (requestChunkMesh st cx cz) := by
  cases hg : getChunk st cx cz with
  | none => rw [requestChunkMesh_noop_none st cx cz hg]; exact h
  | some chunk =>
    cases hb : chunk.blocks with
    | none => rw [requestChunkMesh_noop_noblocks st cx cz chunk hg hb]; exact h
    | some b =>
      by_cases hguard : chunk.state < CHUNK_STATE.DATA_LOADED ∨
          chunk.state = CHUNK_STATE.MESHING
      · rw [requestChunkMesh_noop_guard st cx cz chunk b hg hb hguard]; exact h
      · unfold requestChunkMesh
        simp only [hg, hb]
        rw [if_neg hguard]
        cases hn : getNeighbourDataForMeshing st cx cz with
        | none =>
          exact putChunk_storeInv _ _ _ _ h ⟨fun _ => le_refl _, fun _ => rfl⟩
        | some nd =>
          intro e he
          rcases mem_mapSet _ _ _ _ he with h1 | h1
          · exact h e h1
          · rw [h1]
            constructor
            · intro _
              show (2 : Nat) ≤ 3
              decide
            · intro _
              rfl

theorem updateNeighboursStep_storeInv (cx cz : Int) (s : WorldState) (o : Int × Int)
    (h : storeInv s) : storeInv (updateNeighboursStep cx cz s o) := by
  unfold updateNeighboursStep
  repeat' split
  all_goals first | exact h | exact requestChunkMesh_storeInv _ _ _ h

theorem foldl_storeInv {α : Type} (f : WorldState → α → WorldState)
    (hf : ∀ s a, storeInv s → storeInv (f s a)) :
    ∀ (l : List α) (s : WorldState), storeInv s → storeInv (l.foldl f s)
  | [], _, h => h
  | a :: t, s, h => foldl_storeInv f hf t (f s a) (hf s a h)

theorem updateNeighboursOf_storeInv (st : WorldState) (cx cz : Int)
    (h : storeInv st) : storeInv (updateNeighboursOf st cx cz) :=
  foldl_storeInv _ (updateNeighboursStep_storeInv cx cz) _ _ h

theorem handleWorkerMessage_storeInv (st : WorldState) (m : WorkerMsg) (h : storeInv st) :
    storeInv (handleWorkerMessage st m) := by
  cases m with
  | log _ => exact h
  | errorMsg _ => exact h
  | generated cx cz blocks =>
    cases hg : getChunk st cx cz with
    | none => unfold handleWorkerMessage; simp only [hg]; exact h
    | some chunk =>
      unfold handleWorkerMessage
      simp only [hg]
      split_ifs with h1
      · exact requestChunkMesh_storeInv _ _ _
          (putChunk_storeInv _ _ _ _ h ⟨fun _ => le_refl _, fun _ => rfl⟩)
      · exact h
  | meshed cx cz g =>
    cases hg : getChunk st cx cz with
    | none => unfold handleWorkerMessage; simp only [hg]; exact h
    | some chunk =>
      by_cases hm : chunk.state = CHUNK_STATE.MESHING
      · rw [handleMeshed_eq st cx cz g chunk hg hm]
        refine updateNeighboursOf_storeInv _ _ _ (putChunk_storeInv _ _ _ _ h ?_)
        constructor
        · intro _
          show (2 : Nat) ≤ 4
          decide
        · intro _
          exact (h _ (mem_of_mapGet _ _ _ hg)).2 (by rw [hm]; decide)
      · unfold handleWorkerMessage
        simp only [hg]
        rw [if_neg hm]
        exact h

theorem requestChunkGeneration_storeInv (st : WorldState) (cx cz : Int) (h : storeInv st) :
    storeInv (requestChunkGeneration st cx cz) := by
  unfold requestChunkGeneration
  split
  · exact h
  · intro e he
    rcases mem_mapSet _ _ _ _ he with h1 | h1
    · exact h e h1
    · rw [h1]
      refine ⟨?_, ?_⟩ <;> intro hx <;> simp at hx

theorem flagChunkForRebuild_chunkStorage (st : WorldState) (cx cz : Int) :
    (flagChunkForRebuild st cx cz).chunkStorage = st.chunkStorage := by
  unfold flagChunkForRebuild
  repeat' split
  all_goals rfl

theorem flagChunkForRebuild_storeInv (st : WorldState) (cx cz : Int) (h : storeInv st) :
    storeInv (flagChunkForRebuild st cx cz) :=
  storeInv_of_storage_eq st _ (flagChunkForRebuild_chunkStorage st cx cz) h

theorem addBlock_storeInv (st : WorldState) (x y z w : Int) (h : storeInv st) :
    storeInv (addBlock st x y z w) := by
  unfold addBlock worldToVoxelCoords
  cases hg : getChunk st (Int.fdiv x CHUNK_SIZE) (Int.fdiv z CHUNK_SIZE) with
  | none =>
    simp only [hg]
    split_ifs <;> exact h
  | some chunk =>
    cases hb : chunk.blocks with
    | none =>
      simp only [hg, hb]
      split_ifs <;> exact h
    | some b =>
      have hold : chunkInv chunk := h _ (mem_of_mapGet _ _ _ hg)
      simp only [hg, hb]
      split_ifs
      all_goals first
        | exact h
        | (repeat' apply flagChunkForRebuild_storeInv
           exact putChunk_storeInv _ _ _ _ h ⟨hold.1, fun _ => rfl⟩)

theorem removeBlock_storeInv (st : WorldState) (x y z : Int) (h : storeInv st) :
    storeInv (removeBlock st x y z) :=
  addBlock_storeInv st x y z BLOCK_AIR h

theorem processRebuildKeys_storeInv (keys : List (Int × Int)) :
    ∀ (mpf processed : Nat) (st : WorldState), storeInv st →
      storeInv (processRebuildKeys keys mpf processed st) := by
  induction keys with
  | nil => intro _ _ st h; exact h
  | cons key rest ih =>
    intro mpf processed st h
    unfold processRebuildKeys
    split
    · exact h
    · cases hm : mapGet st.chunkStorage key with
      | none => exact ih _ _ _ (fun e he => h e he)
      | some chunk =>
        simp only [hm]
        split_ifs
        · exact ih _ _ _ (fun e he => requestChunkMesh_storeInv st key.1 key.2 h e he)
        · exact ih _ _ _ (fun e he => h e he)
        · exact ih _ _ _ (fun e he => h e he)
        · exact ih _ _ _ h

theorem processRebuildQueue_storeInv (st : WorldState) (n : Nat) (h : storeInv st) :
    storeInv (processRebuildQueue st n) :=
  processRebuildKeys_storeInv _ _ _ _ h

theorem mem_mapDelete_mapSet (m : List ((Int × Int) × Chunk)) (k : Int × Int) (c : Chunk)
    (e : (Int × Int) × Chunk) (h : e ∈ mapDelete (mapSet m k c) k) : e ∈ m := by
  induction m with
  | nil =>
    unfold mapSet mapDelete at h
    rw [if_pos rfl] at h
    exact absurd h (List.not_mem_nil e)
  | cons e2 t ih =>
    obtain ⟨k2, c2⟩ := e2
    unfold mapSet at h
    by_cases h2 : k2 = k
    · rw [if_pos h2] at h
      unfold mapDelete at h
      rw [if_pos rfl] at h
      exact List.mem_cons_of_mem _ h
    · rw [if_neg h2] at h
      unfold mapDelete at h
      rw [if_neg h2] at h
      rcases List.mem_cons.mp h with h3 | h3
      · exact h3 ▸ List.mem_cons_self _ _
      · exact List.mem_cons_of_mem _ (ih h3)

theorem updateWorldPhase1Step_storeInv (st : WorldState) (k : Int × Int) (h : storeInv st) :
    storeInv (updateWorldPhase1Step st k) := by
  unfold updateWorldPhase1Step
  cases hm : mapGet st.chunkStorage k with
  | none => exact requestChunkGeneration_storeInv st k.1 k.2 h
  | some chunk =>
    simp only [hm]
    split_ifs with h1 h2
    · exact requestChunkGeneration_storeInv st k.1 k.2 h
    · refine putChunk_storeInv _ _ _ _ h ?_
      constructor
      · intro _
        show (2 : Nat) ≤ 4
        decide
      · intro _
        exact (h _ (mem_of_mapGet _ _ _ hm)).2 (by rw [h2]; decide)
    · exact h

theorem updateWorldPhase2Step_storeInv (inRange : List (Int × Int)) (st : WorldState)
    (k : Int × Int) (h : storeInv st) : storeInv (updateWorldPhase2Step inRange st k) := by
  unfold updateWorldPhase2Step
  cases hm : mapGet st.chunkStorage k with
  | none => exact h
  | some chunk =>
    simp only [hm]
    split_ifs
    · intro e he
      exact h e (mem_mapDelete_mapSet _ _ _ _ he)
    · exact h

theorem updateWorld_storeInv (st : WorldState) (px pz : Int) (h : storeInv st) :
    storeInv (updateWorld st px pz) := by
  unfold updateWorld
  exact processRebuildKeys_storeInv _ _ _ _
    (foldl_storeInv _ (fun s a hs => updateWorldPhase2Step_storeInv _ s a hs) _ _
      (foldl_storeInv _ (fun s a hs => updateWorldPhase1Step_storeInv s a hs) _ _ h))

theorem Reachable_storeInv (s : WorldState) (h : Reachable s) : storeInv s := by
  induction h with
  | init => intro e he; exact absurd he (List.not_mem_nil e)
  | msg m _ ih => exact handleWorkerMessage_storeInv _ m ih
  | place x y z id2 _ ih => exact addBlock_storeInv _ x y z id2 ih
  | erase x y z _ ih => exact removeBlock_storeInv _ x y z ih
  | rebuild n _ ih => exact processRebuildQueue_storeInv _ n ih
  | update px pz _ ih => exact updateWorld_storeInv _ px pz ih

theorem sC5d_reachable : Reachable sC5d :=
  Reachable.rebuild 1 (Reachable.place 5 10 5 2 (Reachable.msg _ (Reachable.msg _
    (Reachable.msg _ (Reachable.msg _ (Reachable.msg _ (Reachable.msg _
      (Reachable.update 0 0 Reachable.init))))))))

set_option maxRecDepth 1000000 in
theorem C5_lookup : mapGet sC5d.chunkStorage (0, 0) = some cC5 := by rfl

/-- C5 (amended): over every reachable orchestrator state, a stored chunk
holding a non-null mesh has its block data loaded and its state at least
DATA_LOADED.  The spec's stronger claim — mesh non-null only in READY — is
false: a remesh of a READY chunk keeps the old mesh while the chunk sits in
MESHING (see the counterexample). -/
theorem C5_mesh_implies_data (s : WorldState) (hs : Reachable s) (k : Int × Int) (c : Chunk)
    (hmem : (k, c) ∈ s.chunkStorage) (hm : c.mesh.isSome = true) :
    CHUNK_STATE.DATA_LOADED ≤ c.state ∧ c.blocks.isSome = true :=
  ⟨(Reachable_storeInv s hs (k, c) hmem).1 hm,
   (Reachable_storeInv s hs (k, c) hmem).2 ((Reachable_storeInv s hs (k, c) hmem).1 hm)⟩

/-- Witness for C5 (amended), at the reachable remesh state sC5d: chunk
(0,0) holds a mesh, and indeed its blocks are loaded with state at least
DATA_LOADED. -/
theorem C5_mesh_implies_data_witness :
    CHUNK_STATE.DATA_LOADED ≤ cC5.state ∧ cC5.blocks.isSome = true :=
  C5_mesh_implies_data sC5d sC5d_reachable (0, 0) cC5
    (mem_of_mapGet _ _ _ C5_lookup) rfl

/-- Counterexample to C5 as stated: after one updateWorld, data arrivals
for (0,0) and its four lateral neighbours, a meshed reply for (0,0) (READY
with a mesh), an addBlock into (0,0) and one processRebuildQueue step, the
remesh request moves chunk (0,0) back to MESHING while its old mesh is
still installed — so a reachable chunk holds a non-null mesh outside
READY. -/
theorem C5_counterexample :
    ¬ (∀ (s : WorldState), Reachable s → ∀ e ∈ s.chunkStorage,
        e.2.mesh.isSome = true → e.2.state = CHUNK_STATE.READY) := by
  intro h
  have h2 := h sC5d sC5d_reachable ((0, 0), cC5) (mem_of_mapGet _ _ _ C5_lookup) rfl
  exact absurd h2 (by decide)

theorem putChunk_queue (st : WorldState) (cx cz : Int) (c : Chunk) :
    (putChunk st cx cz c).meshRebuildQueue = st.meshRebuildQueue := rfl

theorem putChunk_chunkStorage (st : WorldState) (cx cz : Int) (c : Chunk) :
    (putChunk st cx cz c).chunkStorage = mapSet st.chunkStorage (chunkKey cx cz) c := rfl

theorem flagChunkForRebuild_mem (st : WorldState) (cx cz : Int) (k : Int × Int) :
    k ∈ (flagChunkForRebuild st cx cz).meshRebuildQueue ↔
      k ∈ st.meshRebuildQueue ∨
        (k = chunkKey cx cz ∧ rebuildFlagCond st.chunkStorage (chunkKey cx cz) = true) := by
  cases hm : mapGet st.chunkStorage (chunkKey cx cz) with
  | none =>
    unfold flagChunkForRebuild rebuildFlagCond
    simp only [hm]
    simp
  | some chunk =>
    cases hb : chunk.blocks with
    | none =>
      unfold flagChunkForRebuild rebuildFlagCond
      simp only [hm, hb]
      simp
    | some b =>
      unfold flagChunkForRebuild rebuildFlagCond
      simp only [hm, hb, Option.isSome_some, Bool.true_and]
      split_ifs with h1 h2 h3
      · constructor
        · exact fun hk => Or.inl hk
        · rintro (hk | hk)
          · exact hk
          · rw [hk.1]
            exact h3
      · simp only [List.mem_append, List.mem_singleton]
        constructor
        · rintro (hk | hk)
          · exact Or.inl hk
          · exact Or.inr ⟨hk, by simp [h1, h2]⟩
        · rintro (hk | hk)
          · exact Or.inl hk
          · exact Or.inr hk.1
      · simp [h2]
      · simp [h1]

theorem mem_queue_flagStep (c : Prop) [Decidable c] (s : WorldState) (a b : Int)
    (k : Int × Int) :
    k ∈ (if c then flagChunkForRebuild s a b else s).meshRebuildQueue ↔
      k ∈ s.meshRebuildQueue ∨
        (c ∧ k = chunkKey a b ∧ rebuildFlagCond s.chunkStorage (chunkKey a b) = true) := by
  split_ifs with hc
  · rw [flagChunkForRebuild_mem]
    constructor
    · rintro (h | h)
      · exact Or.inl h
      · exact Or.inr ⟨hc, h⟩
    · rintro (h | ⟨_, h⟩)
      · exact Or.inl h
      · exact Or.inr h
  · constructor
    · exact Or.inl
    · rintro (h | ⟨hc2, _⟩)
      · exact h
      · exact absurd hc2 hc

theorem flagStep_chunkStorage (c : Prop) [Decidable c] (s : WorldState) (a b : Int) :
    (if c then flagChunkForRebuild s a b else s).chunkStorage = s.chunkStorage := by
  split_ifs
  · exact flagChunkForRebuild_chunkStorage s a b
  · rfl

set_option maxHeartbeats 2000000 in
/-- C8 (amended): complete characterization of the rebuild queue after a
successful block write (in-bounds y, owning chunk present with loaded blocks
at state at least DATA_LOADED, new id different from the stored one).  A key
is queued iff it was already queued, or it is the owning chunk's key or the
key of a lateral neighbour whose boundary the written cell touches (local
x = 0 / CHUNK_SIZE-1, z = 0 / CHUNK_SIZE-1) AND that key passes the guard of
flagChunkForRebuild on the post-write store m1: chunk present, blocks
loaded, state at least DATA_LOADED and not MESHING.  In particular a
non-boundary write can queue only the owning chunk, and a touched neighbour
that is absent or MESHING is silently skipped, contrary to the claim. -/
theorem C8_addBlock_flags (st : WorldState) (x y z w : Int) (chunk : Chunk) (b : BlocksGrid)
    (m1 : List ((Int × Int) × Chunk))
    (hy0 : 0 ≤ y) (hy1 : y < CHUNK_HEIGHT)
    (hg : getChunk st (Int.fdiv x CHUNK_SIZE) (Int.fdiv z CHUNK_SIZE) = some chunk)
    (hb : chunk.blocks = some b)
    (hst : CHUNK_STATE.DATA_LOADED ≤ chunk.state)
    (hdiff : b (Int.emod x CHUNK_SIZE) y (Int.emod z CHUNK_SIZE) ≠ w)
    (hm1 : m1 = (putChunk st (Int.fdiv x CHUNK_SIZE) (Int.fdiv z CHUNK_SIZE)
      { chunk with blocks := some (setBlockInGrid b (Int.emod x CHUNK_SIZE) y
          (Int.emod z CHUNK_SIZE) w) }).chunkStorage) :
    ∀ k : Int × Int,
      k ∈ (addBlock st x y z w).meshRebuildQueue ↔
        k ∈ st.meshRebuildQueue ∨
          (k = chunkKey (Int.fdiv x CHUNK_SIZE) (Int.fdiv z CHUNK_SIZE) ∧
            rebuildFlagCond m1 (chunkKey (Int.fdiv x CHUNK_SIZE) (Int.fdiv z CHUNK_SIZE)) =
              true) ∨
          (Int.emod x CHUNK_SIZE = 0 ∧
            k = chunkKey (Int.fdiv x CHUNK_SIZE - 1) (Int.fdiv z CHUNK_SIZE) ∧
            rebuildFlagCond m1
              (chunkKey (Int.fdiv x CHUNK_SIZE - 1) (Int.fdiv z CHUNK_SIZE)) = true) ∨
          (Int.emod x CHUNK_SIZE = CHUNK_SIZE - 1 ∧
            k = chunkKey (Int.fdiv x CHUNK_SIZE + 1) (Int.fdiv z CHUNK_SIZE) ∧
            rebuildFlagCond m1
              (chunkKey (Int.fdiv x CHUNK_SIZE + 1) (Int.fdiv z CHUNK_SIZE)) = true) ∨
          (Int.emod z CHUNK_SIZE = 0 ∧
            k = chunkKey (Int.fdiv x CHUNK_SIZE) (Int.fdiv z CHUNK_SIZE - 1) ∧
            rebuildFlagCond m1
              (chunkKey (Int.fdiv x CHUNK_SIZE) (Int.fdiv z CHUNK_SIZE - 1)) = true) ∨
          (Int.emod z CHUNK_SIZE = CHUNK_SIZE - 1 ∧
            k = chunkKey (Int.fdiv x CHUNK_SIZE) (Int.fdiv z CHUNK_SIZE + 1) ∧
            rebuildFlagCond m1
              (chunkKey (Int.fdiv x CHUNK_SIZE) (Int.fdiv z CHUNK_SIZE + 1)) = true) := by
  intro k
  subst hm1
  unfold addBlock worldToVoxelCoords
  simp only [hg, hb]
  rw [if_neg (by omega : ¬ (y < 0 ∨ CHUNK_HEIGHT ≤ y)), if_neg (not_lt.mpr hst),
    if_neg hdiff]
  simp only [mem_queue_flagStep, flagChunkForRebuild_mem, putChunk_queue,
    flagStep_chunkStorage, flagChunkForRebuild_chunkStorage, putChunk_chunkStorage]
  tauto

/-- Witness for C8 (amended): a non-boundary write (world (5,10,5), local
x = z = 5) into a one-chunk store; instantiating the characterization at
key (0,0) shows the owning chunk's queue membership is governed exactly by
the guard of flagChunkForRebuild on the post-write store. -/
theorem C8_addBlock_flags_witness :
    ((0, 0) ∈ (addBlock ⟨[((0, 0), ⟨0, 0, some gridOnes, none, 2⟩)], [], []⟩
        5 10 5 2).meshRebuildQueue ↔
      (0, 0) ∈ (⟨[((0, 0), ⟨0, 0, some gridOnes, none, 2⟩)], [], []⟩ :
          WorldState).meshRebuildQueue ∨
        ((0, 0) = chunkKey (Int.fdiv 5 CHUNK_SIZE) (Int.fdiv 5 CHUNK_SIZE) ∧
          rebuildFlagCond
            [((0, 0), ⟨0, 0, some (setBlockInGrid gridOnes 5 10 5 2), none, 2⟩)]
            (chunkKey (Int.fdiv 5 CHUNK_SIZE) (Int.fdiv 5 CHUNK_SIZE)) = true) ∨
        (Int.emod 5 CHUNK_SIZE = 0 ∧
          (0, 0) = chunkKey (Int.fdiv 5 CHUNK_SIZE - 1) (Int.fdiv 5 CHUNK_SIZE) ∧
          rebuildFlagCond
            [((0, 0), ⟨0, 0, some (setBlockInGrid gridOnes 5 10 5 2), none, 2⟩)]
            (chunkKey (Int.fdiv 5 CHUNK_SIZE - 1) (Int.fdiv 5 CHUNK_SIZE)) = true) ∨
        (Int.emod 5 CHUNK_SIZE = CHUNK_SIZE - 1 ∧
          (0, 0) = chunkKey (Int.fdiv 5 CHUNK_SIZE + 1) (Int.fdiv 5 CHUNK_SIZE) ∧
          rebuildFlagCond
            [((0, 0), ⟨0, 0, some (setBlockInGrid gridOnes 5 10 5 2), none, 2⟩)]
            (chunkKey (Int.fdiv 5 CHUNK_SIZE + 1) (Int.fdiv 5 CHUNK_SIZE)) = true) ∨
        (Int.emod 5 CHUNK_SIZE = 0 ∧
          (0, 0) = chunkKey (Int.fdiv 5 CHUNK_SIZE) (Int.fdiv 5 CHUNK_SIZE - 1) ∧
          rebuildFlagCond
            [((0, 0), ⟨0, 0, some (setBlockInGrid gridOnes 5 10 5 2), none, 2⟩)]
            (chunkKey (Int.fdiv 5 CHUNK_SIZE) (Int.fdiv 5 CHUNK_SIZE - 1)) = true) ∨
        (Int.emod 5 CHUNK_SIZE = CHUNK_SIZE - 1 ∧
          (0, 0) = chunkKey (Int.fdiv 5 CHUNK_SIZE) (Int.fdiv 5 CHUNK_SIZE + 1) ∧
          rebuildFlagCond
            [((0, 0), ⟨0, 0, some (setBlockInGrid gridOnes 5 10 5 2), none, 2⟩)]
            (chunkKey (Int.fdiv 5 CHUNK_SIZE) (Int.fdiv 5 CHUNK_SIZE + 1)) = true)) :=
  C8_addBlock_flags ⟨[((0, 0), ⟨0, 0, some gridOnes, none, 2⟩)], [], []⟩ 5 10 5 2
    ⟨0, 0, some gridOnes, none, 2⟩ gridOnes
    [((0, 0), ⟨0, 0, some (setBlockInGrid gridOnes 5 10 5 2), none, 2⟩)]
    (by decide) (by decide) rfl rfl (by decide) (by decide) rfl (0, 0)

/-- Counterexample to C8 as stated: a successful boundary write does not
always flag the touched lateral neighbour.  In a store holding only chunk
(2,2) (DATA_LOADED, blocks loaded), the write at world (32,10,38) has local
x = 0, so the claim requires chunk (1,2) to be flagged; flagChunkForRebuild
silently skips the absent (1,2), and only (2,2) is queued. -/
theorem C8_counterexample :
    ¬ (∀ (st : WorldState) (x y z w : Int) (chunk : Chunk) (b : BlocksGrid),
        0 ≤ y → y < CHUNK_HEIGHT →
        getChunk st (Int.fdiv x CHUNK_SIZE) (Int.fdiv z CHUNK_SIZE) = some chunk →
        chunk.blocks = some b →
        CHUNK_STATE.DATA_LOADED ≤ chunk.state →
        b (Int.emod x CHUNK_SIZE) y (Int.emod z CHUNK_SIZE) ≠ w →
        Int.emod x CHUNK_SIZE = 0 →
        chunkKey (Int.fdiv x CHUNK_SIZE - 1) (Int.fdiv z CHUNK_SIZE)
          ∈ (addBlock st x y z w).meshRebuildQueue) := by
  intro h
  have h2 := h ⟨[((2, 2), ⟨2, 2, some gridOnes, none, 2⟩)], [], []⟩ 32 10 38 2
    ⟨2, 2, some gridOnes, none, 2⟩ gridOnes (by decide) (by decide) rfl rfl (by decide)
    (by decide) (by decide)
  exact absurd h2 (by decide)

